import Mathlib

/-!
Shallow embedding of the eBPF ELF object loader (tools/lib/bpf/libbpf.c)
and proofs about it.

Machine integers are modelled as `Nat`/`Int`; 32-bit signed wraparound is
made explicit through `toInt32` where the C code can overflow.  External
collaborators (the kernel syscall surface, libelf accessors, malloc) are
modelled as explicit oracle records passed to the embedded functions; each
embedded function mirrors the control flow of the C function of the same
name.
-/

namespace Libbpf

/-- `EINVAL` errno magnitude. -/
def EINVAL : Int := 22

/-- `ENOMEM` errno magnitude. -/
def ENOMEM : Int := 12

/-- `enum libbpf_errno` values (libbpf.h, `__LIBBPF_ERRNO__START = 4000`). -/
def LIBBPF_ERRNO__LIBELF : Int := 4000

def LIBBPF_ERRNO__FORMAT : Int := 4001

def LIBBPF_ERRNO__KVERSION : Int := 4002

def LIBBPF_ERRNO__ENDIAN : Int := 4003

def LIBBPF_ERRNO__INTERNAL : Int := 4004

def LIBBPF_ERRNO__RELOC : Int := 4005

def LIBBPF_ERRNO__LOAD : Int := 4006

def LIBBPF_ERRNO__VERIFY : Int := 4007

def LIBBPF_ERRNO__PROG2BIG : Int := 4008

def LIBBPF_ERRNO__KVER : Int := 4009

def LIBBPF_ERRNO__PROGTYPE : Int := 4010

/-- `BPF_MAXINSNS` (linux/bpf_common.h). -/
def BPF_MAXINSNS : Nat := 4096

/-- `enum bpf_prog_type` values used by the loader's control flow. -/
def BPF_PROG_TYPE_UNSPEC : Nat := 0

def BPF_PROG_TYPE_SOCKET_FILTER : Nat := 1

def BPF_PROG_TYPE_KPROBE : Nat := 2

/-- `BPF_PSEUDO_MAP_FD` (linux/bpf.h). -/
def BPF_PSEUDO_MAP_FD : Nat := 1

/-- `BPF_PSEUDO_CALL` (linux/bpf.h). -/
def BPF_PSEUDO_CALL : Nat := 1

/-- Opcode `BPF_JMP | BPF_CALL` = 0x05 | 0x80. -/
def BPF_CALL_CODE : Nat := 0x85

/-- Opcode `BPF_LD | BPF_IMM | BPF_DW` = 0x00 | 0x00 | 0x18. -/
def BPF_LD_IMM_DW_CODE : Nat := 0x18

/-- Reduce an integer to the value a C `__s32` would hold (two's complement
wraparound). -/
def toInt32 (n : Int) : Int := (n + 2 ^ 31) % 2 ^ 32 - 2 ^ 31

/-- `struct bpf_insn`: one 8-byte VM instruction record. -/
structure bpf_insn where
  code : Nat
  dst_reg : Nat
  src_reg : Nat
  off : Int
  imm : Int
deriving DecidableEq, Repr

/--
Kernel / allocator oracle for one run of `load_program`:
the outcome of the first `bpf_load_program_xattr` call, the contents of the
verifier log it left behind, the outcome of the probe retry submission
(kind forced to kprobe, no log buffer), and whether `malloc(BPF_LOG_BUF_SIZE)`
succeeded.
-/
structure load_kernel where
  first_ret : Int
  first_log_nonempty : Bool
  retry_ret : Int
  log_alloc : Bool
deriving DecidableEq, Repr

/--
Embedding of `load_program` (libbpf.c:1289-1357).  The C function reports a
descriptor through `*pfd` and returns 0, or returns a negative error; here
the two outcomes are an `Except`: `.ok fd` or `.error code`.
-/
def load_program (k : load_kernel) (ty : Nat) (_expected_attach_ty : Nat)
    (_name : String) (insns : Option (List bpf_insn)) (insns_cnt : Nat)
    (_license : String) (_kern_version : Nat) (_prog_ifindex : Nat) :
    Except Int Int :=
  -- if (!load_attr.insns || !load_attr.insns_cnt) return -EINVAL;
  if insns.isNone ∨ insns_cnt = 0 then .error (-EINVAL)
  else
    -- ret = bpf_load_program_xattr(&load_attr, log_buf, BPF_LOG_BUF_SIZE);
    if 0 ≤ k.first_ret then .ok k.first_ret
    else
      -- ret = -LIBBPF_ERRNO__LOAD;
      -- if (log_buf && log_buf[0] != '\0') ret = -LIBBPF_ERRNO__VERIFY;
      if k.log_alloc ∧ k.first_log_nonempty then .error (-LIBBPF_ERRNO__VERIFY)
      else if BPF_MAXINSNS ≤ insns_cnt then .error (-LIBBPF_ERRNO__PROG2BIG)
      else
        -- Wrong program type?  Retried only when not already kprobe.
        if ty ≠ BPF_PROG_TYPE_KPROBE ∧ 0 ≤ k.retry_ret then
          .error (-LIBBPF_ERRNO__PROGTYPE)
        else if k.log_alloc then .error (-LIBBPF_ERRNO__KVER)
        else .error (-LIBBPF_ERRNO__LOAD)

/--
The classification §4.6 of the spec literally describes, written from the
spec's words for comparison with `load_program` (the retry is stated
unconditionally there).
-/
def load_program_spec_words (k : load_kernel) (_ty : Nat)
    (insns : Option (List bpf_insn)) (insns_cnt : Nat) : Except Int Int :=
  if insns.isNone ∨ insns_cnt = 0 then .error (-EINVAL)
  else if 0 ≤ k.first_ret then .ok k.first_ret
  else if k.log_alloc ∧ k.first_log_nonempty then .error (-LIBBPF_ERRNO__VERIFY)
  else if BPF_MAXINSNS ≤ insns_cnt then .error (-LIBBPF_ERRNO__PROG2BIG)
  else if 0 ≤ k.retry_ret then .error (-LIBBPF_ERRNO__PROGTYPE)
  else .error (-LIBBPF_ERRNO__KVER)

/-- `struct bpf_map_def`: {kind, key-byte-size, value-byte-size, capacity,
flags} — five `__u32` fields. -/
structure bpf_map_def where
  type : Nat
  key_size : Nat
  value_size : Nat
  max_entries : Nat
  map_flags : Nat
deriving DecidableEq, Repr

/-- `struct bpf_map`.  The `def` field of the C struct is named `mdef` here
(`def` is a Lean keyword); `priv`/`clear_priv` callbacks are omitted (they
carry no loader state). -/
structure bpf_map where
  fd : Int
  name : String
  offset : Nat
  map_ifindex : Nat
  mdef : bpf_map_def
  btf_key_type_id : Nat
  btf_value_type_id : Nat
deriving DecidableEq, Repr

/-- The part of `struct bpf_map_info` that `bpf_map__reuse_fd` reads from the
kernel's `bpf_obj_get_info_by_fd` reply. -/
structure bpf_map_info where
  name : String
  type : Nat
  key_size : Nat
  value_size : Nat
  max_entries : Nat
  map_flags : Nat
  btf_key_type_id : Nat
  btf_value_type_id : Nat
deriving DecidableEq, Repr

/--
Oracle for the external calls made by `bpf_map__reuse_fd`:
`bpf_obj_get_info_by_fd` (error code, and the info it fills on success),
`strdup` success, the descriptor returned by `open("/", O_RDONLY|O_CLOEXEC)`,
`dup3` success, the return value of `close` on the map's prior descriptor,
and the prevailing `errno` at the failure points that return `-errno`.
-/
structure reuse_env where
  get_info_ret : Int
  info : bpf_map_info
  strdup_ok : Bool
  open_ret : Int
  dup3_ok : Bool
  close_ret : Int
  errno_val : Int
deriving DecidableEq, Repr

/--
Embedding of `bpf_map__reuse_fd` (libbpf.c:1043-1088).  Returns the function
result together with the map state it leaves behind.  Note `zclose(map->fd)`
expands to `if (fd >= 0) err = close(fd); fd = -1;` — it resets the field to
`-1` even when `close` fails.
-/
def bpf_map__reuse_fd (env : reuse_env) (map : bpf_map) (_fd : Int) :
    Int × bpf_map :=
  -- err = bpf_obj_get_info_by_fd(fd, &info, &len); if (err) return err;
  if env.get_info_ret ≠ 0 then (env.get_info_ret, map)
  -- new_name = strdup(info.name); if (!new_name) return -errno;
  else if ¬env.strdup_ok then (-env.errno_val, map)
  -- new_fd = open("/", O_RDONLY | O_CLOEXEC); if (new_fd < 0) goto err_free_new_name;
  else if env.open_ret < 0 then (-env.errno_val, map)
  -- new_fd = dup3(fd, new_fd, O_CLOEXEC); if (new_fd < 0) goto err_close_new_fd;
  else if ¬env.dup3_ok then (-env.errno_val, map)
  else
    -- err = zclose(map->fd); if (err) goto err_close_new_fd;
    let close_err : Int := if 0 ≤ map.fd then env.close_ret else 0
    let map1 := { map with fd := -1 }
    if close_err ≠ 0 then (-env.errno_val, map1)
    else
      (0, { map1 with
              fd := env.open_ret
              name := env.info.name
              mdef := { type := env.info.type
                        key_size := env.info.key_size
                        value_size := env.info.value_size
                        max_entries := env.info.max_entries
                        map_flags := env.info.map_flags }
              btf_key_type_id := env.info.btf_key_type_id
              btf_value_type_id := env.info.btf_value_type_id })

/-- `struct reloc_desc` (nested in `struct bpf_program`): a tagged record,
either a map-fd relocation or a local-call relocation. -/
inductive reloc_desc where
  | RELO_LD64 (insn_idx : Nat) (map_idx : Nat)
  | RELO_CALL (insn_idx : Nat) (text_off : Nat)
deriving DecidableEq, Repr

/-- `bpf_program_prep_t`: per-instance preprocessor callback.  Takes the
instance index, the program's instructions and count; returns an error, or
`none` ("skip this instance"), or a fresh instruction buffer plus count.
The `pfd` out-pointer of `struct bpf_prog_prep_result` writes caller
memory, not loader state, and is not modelled. -/
def bpf_program_prep_t :=
  Nat → Option (List bpf_insn) → Nat → Except Int (Option (List bpf_insn × Nat))

/-- `struct bpf_program`.  `insns` is an `Option` because the C pointer is
`NULL` after a load releases the buffer; `instances.nr`/`instances.fds` are
flattened; `priv`/`clear_priv` and the back-pointer `obj` are omitted.
The separate `nr_reloc` counter is represented by the length of the
`reloc_desc` list. -/
structure bpf_program where
  idx : Int
  name : Option String
  prog_ifindex : Nat
  section_name : String
  insns : Option (List bpf_insn)
  insns_cnt : Nat
  main_prog_cnt : Nat
  type : Nat
  expected_attach_type : Nat
  reloc_desc : Option (List reloc_desc)
  instances_nr : Int
  instances_fds : Option (List Int)
  preprocessor : Option bpf_program_prep_t

/-- `struct bpf_object` as the kernel phase sees it.  `btf` records whether
`obj->btf` is non-NULL; `efile_text_shndx` is `obj->efile.text_shndx`.  The
libelf parse scaffolding, path string and global object list are omitted. -/
structure bpf_object where
  license : String
  kern_version : Nat
  programs : List bpf_program
  maps : List bpf_map
  loaded : Bool
  has_pseudo_calls : Bool
  btf : Bool
  efile_text_shndx : Int

/-- `bpf_object__find_prog_by_idx` (libbpf.c:863-875). -/
def bpf_object__find_prog_by_idx (obj : bpf_object) (idx : Int) :
    Option bpf_program :=
  obj.programs.find? (fun p => p.idx == idx)

/--
Embedding of `bpf_program__reloc_text` (libbpf.c:1154-1195).  On error the C
function has not yet touched the program, so the error branch carries no
state.  `reallocarray`/OOM is modelled as succeeding.  The final
`insn->imm += prog->main_prog_cnt - relo->insn_idx` is 32-bit arithmetic,
hence `toInt32`; an out-of-range `insn_idx` write is undefined behaviour in
C and is modelled as a no-op via `List.modify`.
-/
def bpf_program__reloc_text (obj : bpf_object) (prog : bpf_program)
    (relo : reloc_desc) : Except Int bpf_program :=
  match relo with
  | .RELO_LD64 _ _ => .error (-LIBBPF_ERRNO__RELOC)
  | .RELO_CALL insn_idx _text_off =>
    if prog.idx = obj.efile_text_shndx then .error (-LIBBPF_ERRNO__RELOC)
    else
      let step : Except Int bpf_program :=
        if prog.main_prog_cnt = 0 then
          match bpf_object__find_prog_by_idx obj obj.efile_text_shndx with
          | none => .error (-LIBBPF_ERRNO__RELOC)
          | some text =>
            .ok { prog with
                  insns := some ((prog.insns.getD []) ++
                                 (text.insns.getD []).take text.insns_cnt)
                  main_prog_cnt := prog.insns_cnt
                  insns_cnt := prog.insns_cnt + text.insns_cnt }
        else .ok prog
      match step with
      | .error e => .error e
      | .ok p =>
        .ok { p with
              insns := some ((p.insns.getD []).modify
                (fun insn =>
                  { insn with
                    imm := toInt32 (insn.imm + (p.main_prog_cnt : Int) -
                                    (insn_idx : Int)) }) insn_idx) }

/-- The loop body of `bpf_program__relocate` over the collected relocation
entries; on error the partially patched program is kept (the C code mutates
in place).  An out-of-range `map_idx` read is undefined behaviour in C and
is modelled as descriptor 0. -/
def relocate_entries (obj : bpf_object) (prog : bpf_program) :
    List reloc_desc → Int × bpf_program
  | [] => (0, prog)
  | r :: rest =>
    match r with
    | .RELO_LD64 insn_idx map_idx =>
      if prog.insns_cnt ≤ insn_idx then (-LIBBPF_ERRNO__RELOC, prog)
      else
        let fd := match obj.maps.get? map_idx with
                  | some m => m.fd
                  | none => 0
        relocate_entries obj
          { prog with
            insns := some ((prog.insns.getD []).modify
              (fun insn => { insn with src_reg := BPF_PSEUDO_MAP_FD, imm := fd })
              insn_idx) } rest
    | .RELO_CALL _ _ =>
      match bpf_program__reloc_text obj prog r with
      | .error e => (e, prog)
      | .ok p => relocate_entries obj p rest

/-- Embedding of `bpf_program__relocate` (libbpf.c:1197-1231): `return 0`
when the relocation list was already discarded, else process every entry and
then free the list. -/
def bpf_program__relocate (obj : bpf_object) (prog : bpf_program) :
    Int × bpf_program :=
  match prog.reloc_desc with
  | none => (0, prog)
  | some relos =>
    let (e, p) := relocate_entries obj prog relos
    if e ≠ 0 then (e, p) else (0, { p with reloc_desc := none })

/-- Embedding of `bpf_object__relocate` (libbpf.c:1234-1252): patch each
program in turn, stopping at the first failure (earlier programs keep their
patched state). -/
def bpf_object__relocate_from (obj : bpf_object) (i : Nat) :
    Nat → Int × bpf_object
  | 0 => (0, obj)
  | fuel + 1 =>
    if h : i < obj.programs.length then
      let prog := obj.programs.get ⟨i, h⟩
      let (e, p) := bpf_program__relocate obj prog
      let obj1 := { obj with programs := obj.programs.set i p }
      if e ≠ 0 then (e, obj1) else bpf_object__relocate_from obj1 (i + 1) fuel
    else (0, obj)

/-- `bpf_object__relocate` proper; the fuel is the (loop-invariant) program
count, so the loop visits every index. -/
def bpf_object__relocate (obj : bpf_object) : Int × bpf_object :=
  bpf_object__relocate_from obj 0 obj.programs.length

/-- Kernel oracle for `bpf_object__create_maps`: `create i populated` is the
descriptor (or negative error) `bpf_create_map_xattr` returns for the map at
position `i` when the request's BTF fields are (not) populated; `btf_find i`
is the key/value type-id pair `bpf_map_find_btf_info` computes on success,
`none` on failure. -/
structure map_kernel where
  create : Nat → Bool → Int
  btf_find : Nat → Option (Nat × Nat)

/-- Loop of `bpf_object__create_maps` (libbpf.c:1090-1152).  On failure at
map `i`, the failing (negative) return value has been stored through `*pfd`
into map `i`, all previously created maps `j < i` are `zclose`d, and the
error is returned. -/
def create_maps_from (k : map_kernel) (obj : bpf_object) (i : Nat) :
    Nat → Int × bpf_object
  | 0 => (0, obj)
  | fuel + 1 =>
    if h : i < obj.maps.length then
    let map := obj.maps.get ⟨i, h⟩
    -- if (map->fd >= 0) { skip map create (preset) }
    if 0 ≤ map.fd then create_maps_from k obj (i + 1) fuel
    else
      let found := if obj.btf then k.btf_find i else none
      let map1 := match found with
                  | some (kid, vid) =>
                    { map with btf_key_type_id := kid, btf_value_type_id := vid }
                  | none => map
      let kid := match found with
                 | some (x, _) => x
                 | none => 0
      let pfd1 := k.create i found.isSome
      -- if (*pfd < 0 && create_attr.btf_key_type_id) retry without BTF
      let second := pfd1 < 0 ∧ kid ≠ 0
      let pfd2 := if second then k.create i false else pfd1
      let map2 := if second then
                    { map1 with btf_key_type_id := 0, btf_value_type_id := 0 }
                  else map1
      let map3 := { map2 with fd := pfd2 }
      let obj1 := { obj with maps := obj.maps.set i map3 }
      if pfd2 < 0 then
        (pfd2, { obj1 with
                 maps := obj1.maps.mapIdx
                   (fun j m => if j < i then { m with fd := -1 } else m) })
      else create_maps_from k obj1 (i + 1) fuel
    else (0, obj)

/-- `bpf_object__create_maps` proper; the fuel is the (loop-invariant) map
count, so the loop visits every index. -/
def bpf_object__create_maps (k : map_kernel) (obj : bpf_object) :
    Int × bpf_object :=
  create_maps_from k obj 0 obj.maps.length

/-- `bpf_program__unload` (libbpf.c:230-251): close every instance
descriptor, reset the instance vector to the "never loaded" sentinel. -/
def bpf_program__unload (prog : bpf_program) : bpf_program :=
  { prog with instances_nr := -1, instances_fds := none }

/-- `bpf_object__unload` (libbpf.c:1580-1594) for a non-NULL object:
`zclose` every map descriptor and unload every program. -/
def bpf_object__unload (obj : bpf_object) : bpf_object :=
  { obj with
    maps := obj.maps.map (fun m => { m with fd := -1 })
    programs := obj.programs.map bpf_program__unload }

/-- Set position `i` of a program's instance-descriptor vector. -/
def set_instance_fd (fds : Option (List Int)) (i : Nat) (v : Int) :
    Option (List Int) :=
  fds.map (fun l => l.set i v)

/-- The preprocessor loop of `bpf_program__load` (libbpf.c:1395-1432);
`lk i` is the kernel/allocator oracle for the submission of instance `i`. -/
def load_instances (lk : Nat → load_kernel) (pre : bpf_program_prep_t)
    (license : String) (kern_version : Nat) (prog : bpf_program) (i : Nat) :
    Nat → Int × bpf_program
  | 0 => (0, prog)
  | fuel + 1 =>
    if i < prog.instances_nr.toNat then
      match pre i prog.insns prog.insns_cnt with
      | .error e => (e, prog)
      | .ok none =>
        -- Skip loading this instance; fds[i] = -1.
        load_instances lk pre license kern_version
          { prog with instances_fds := set_instance_fd prog.instances_fds i (-1) }
          (i + 1) fuel
      | .ok (some (new_insns, new_cnt)) =>
        match load_program (lk i) prog.type prog.expected_attach_type
            (prog.name.getD "") (some new_insns) new_cnt license kern_version
            prog.prog_ifindex with
        | .error e => (e, prog)
        | .ok fd =>
          load_instances lk pre license kern_version
            { prog with instances_fds := set_instance_fd prog.instances_fds i fd }
            (i + 1) fuel
    else (0, prog)

/--
Embedding of `bpf_program__load` (libbpf.c:1359-1440).  The `malloc` of the
single-instance descriptor vector is modelled as succeeding.  Except for the
early `INTERNAL` return, every exit releases the instruction buffer and
clears the count (`out:` label).
-/
def bpf_program__load (lk : Nat → load_kernel) (prog : bpf_program)
    (license : String) (kern_version : Nat) : Int × bpf_program :=
  if prog.instances_nr < 0 ∨ prog.instances_fds.isNone then
    if prog.preprocessor.isSome then (-LIBBPF_ERRNO__INTERNAL, prog)
    else
      bpf_program__load_ready lk
        { prog with instances_nr := 1, instances_fds := some [-1] }
        license kern_version
  else bpf_program__load_ready lk prog license kern_version
where
  /-- The body after the instance vector exists, through the `out:` label. -/
  bpf_program__load_ready (lk : Nat → load_kernel) (prog : bpf_program)
      (license : String) (kern_version : Nat) : Int × bpf_program :=
    let (err, prog1) :=
      match prog.preprocessor with
      | none =>
        match load_program (lk 0) prog.type prog.expected_attach_type
            (prog.name.getD "") prog.insns prog.insns_cnt license kern_version
            prog.prog_ifindex with
        | .error e => (e, prog)
        | .ok fd =>
          (0, { prog with instances_fds := set_instance_fd prog.instances_fds 0 fd })
      | some pre =>
        load_instances lk pre license kern_version prog 0 prog.instances_nr.toNat
    -- out: zfree(&prog->insns); prog->insns_cnt = 0;
    (err, { prog1 with insns := none, insns_cnt := 0 })

/-- `bpf_program__is_function_storage` (libbpf.c:1442-1446). -/
def bpf_program__is_function_storage (prog : bpf_program) (obj : bpf_object) :
    Bool :=
  prog.idx == obj.efile_text_shndx && obj.has_pseudo_calls

/-- Kernel oracle for the submission loop: `lp i j` is the oracle for the
submission of instance `j` of the program at position `i`. -/
structure prog_kernel where
  lp : Nat → Nat → load_kernel

/-- The loop of `bpf_object__load_progs` (libbpf.c:1448-1464): skip
function-storage programs, load the rest, stop at the first failure. -/
def load_progs_from (k : prog_kernel) (obj : bpf_object) (i : Nat) :
    Nat → Int × bpf_object
  | 0 => (0, obj)
  | fuel + 1 =>
    if h : i < obj.programs.length then
      let prog := obj.programs.get ⟨i, h⟩
      if bpf_program__is_function_storage prog obj then
        load_progs_from k obj (i + 1) fuel
      else
        let (err, prog1) := bpf_program__load (k.lp i) prog obj.license
          obj.kern_version
        let obj1 := { obj with programs := obj.programs.set i prog1 }
        if err ≠ 0 then (err, obj1) else load_progs_from k obj1 (i + 1) fuel
    else (0, obj)

/-- `bpf_object__load_progs` proper. -/
def bpf_object__load_progs (k : prog_kernel) (obj : bpf_object) :
    Int × bpf_object :=
  load_progs_from k obj 0 obj.programs.length

/--
Embedding of `bpf_object__load` (libbpf.c:1596-1619) for a non-NULL object:
refuse a second load with `-EINVAL`, set `loaded`, then create maps, patch
and submit; any phase failure tears everything down via
`bpf_object__unload` before returning.
-/
def bpf_object__load (mk : map_kernel) (pk : prog_kernel) (obj : bpf_object) :
    Int × bpf_object :=
  if obj.loaded then (-EINVAL, obj)
  else
    let obj0 := { obj with loaded := true }
    let (e1, obj1) := bpf_object__create_maps mk obj0
    if e1 ≠ 0 then (e1, bpf_object__unload obj1)
    else
      let (e2, obj2) := bpf_object__relocate obj1
      if e2 ≠ 0 then (e2, bpf_object__unload obj2)
      else
        let (e3, obj3) := bpf_object__load_progs pk obj2
        if e3 ≠ 0 then (e3, bpf_object__unload obj3)
        else (0, obj3)

/-! ## Parse phase: ELF sweep, map table builder, open pipeline -/

/-- ELF constants used by the sweep. -/
def SHT_PROGBITS : Nat := 1

def SHT_SYMTAB : Nat := 2

def SHT_REL : Nat := 9

def SHF_EXECINSTR : Nat := 4

def STB_GLOBAL : Nat := 1

def ET_REL : Nat := 1

def EM_BPF : Nat := 247

def ELFDATA2LSB : Nat := 1

def ELFDATA2MSB : Nat := 2

/-- `BTF_ELF_SEC`. -/
def BTF_ELF_SEC : String := ".BTF"

/-- `sizeof(struct bpf_map_def)`: five `__u32` fields. -/
def bpf_map_def_size : Nat := 20

/-- `sizeof(struct bpf_insn)`. -/
def bpf_insn_size : Nat := 8

/-- The fields of a `GElf_Sym` that the loader reads (`st_bind` is
`GELF_ST_BIND(st_info)`). -/
structure GElf_Sym where
  st_name : Nat
  st_bind : Nat
  st_shndx : Nat
  st_value : Nat
deriving DecidableEq, Repr

/-- The fields of a `GElf_Rel` that the loader reads (`r_sym` is
`GELF_R_SYM(r_info)`). -/
structure GElf_Rel where
  r_offset : Nat
  r_sym : Nat
deriving DecidableEq, Repr

/--
One ELF section as the sweep sees it: header fields plus the section data.
The raw `d_buf` is modelled by typed views: `bytes` for data sections
(convention: `bytes` holds `d_size` bytes), `syms` for a symbol table
(`none` entries model `gelf_getsym` failures), `rels` for a relocation
table (`none` models `gelf_getrel` failure), `insns` for executable
sections (convention: `insns` holds `d_size / 8` decoded records).
-/
structure elf_section where
  name : String
  sh_type : Nat
  sh_flags : Nat
  sh_link : Nat
  sh_info : Nat
  d_size : Nat
  bytes : List Nat
  syms : List (Option GElf_Sym)
  rels : List (Option GElf_Rel)
  insns : List bpf_insn

instance : Inhabited bpf_insn := ⟨⟨0, 0, 0, 0, 0⟩⟩

/-- Little-endian `__u32` read at byte offset `off` (the object's data
encoding was checked to match the host, modelled little-endian). -/
def u32le (bytes : List Nat) (off : Nat) : Nat :=
  bytes.getD off 0 + 256 * bytes.getD (off + 1) 0 +
    65536 * bytes.getD (off + 2) 0 + 16777216 * bytes.getD (off + 3) 0

/-- Decode the native `struct bpf_map_def` from its 20-byte image. -/
def decode_map_def (b : List Nat) : bpf_map_def :=
  { type := u32le b 0
    key_size := u32le b 4
    value_size := u32le b 8
    max_entries := u32le b 12
    map_flags := u32le b 16 }

/--
The definition-record copy rule of `bpf_object__init_maps`
(libbpf.c:673-702) for one entry: `defb` is the `map_def_sz`-byte record at
the symbol's offset.  If `map_def_sz` fits in the native record, copy it all
and leave the rest zero (the table was `calloc`ed); if it is larger, the
excess tail must be all zero, else `-EINVAL`, and only the native-size
prefix is copied.
-/
def map_def_bytes (defb : List Nat) (map_def_sz : Nat) : Except Int (List Nat) :=
  if map_def_sz ≤ bpf_map_def_size then
    .ok (defb.take map_def_sz ++ List.replicate (bpf_map_def_size - map_def_sz) 0)
  else if ((defb.take map_def_sz).drop bpf_map_def_size).any (fun b => b ≠ 0) then
    .error (-EINVAL)
  else
    .ok (defb.take bpf_map_def_size)

/-- One iteration of the fill loop of `bpf_object__init_maps`
(libbpf.c:646-704): offset from the symbol value, bounds check against the
section size, name from the string table, definition copy. -/
def init_one_map (strtab : Nat → String) (data : List Nat) (map_def_sz : Nat)
    (sym : GElf_Sym) : Except Int bpf_map :=
  if data.length < sym.st_value + map_def_sz then .error (-EINVAL)
  else
    match map_def_bytes (data.drop sym.st_value) map_def_sz with
    | .error e => .error e
    | .ok b =>
      .ok { fd := -1
            name := strtab sym.st_name
            offset := sym.st_value
            map_ifindex := 0
            mdef := decode_map_def b
            btf_key_type_id := 0
            btf_value_type_id := 0 }

/-- `compare_bpf_map` (libbpf.c:565-571): `a->offset - b->offset` is
computed on `size_t` and implicitly converted to `int`; the mod-2^64
unsigned subtraction followed by mod-2^32 truncation collapses to
`toInt32` of the exact difference. -/
def compare_bpf_map (a b : bpf_map) : Int :=
  toInt32 ((a.offset : Int) - (b.offset : Int))

/-- The order `qsort` is asked to sort by: comparator result ≤ 0. -/
def map_le (a b : bpf_map) : Prop := compare_bpf_map a b ≤ 0

instance : DecidableRel map_le := fun a b => Int.decLe _ _

/--
Embedding of `bpf_object__init_maps` (libbpf.c:573-708).  `maps_data` is
`none` when the maps section or its data cannot be fetched.  Symbols whose
`gelf_getsym` fails (`none`) are skipped, as in both loops of the C code.
The final `qsort` is modelled by insertion sort over the comparator order.
-/
def bpf_object__init_maps (strtab : Nat → String) (maps_shndx : Int)
    (symbols : Option (List (Option GElf_Sym)))
    (maps_data : Option (List Nat)) : Except Int (List bpf_map) :=
  if maps_shndx < 0 then .error (-EINVAL)
  else
    match symbols with
    | none => .error (-EINVAL)
    | some syms =>
      match maps_data with
      | none => .error (-EINVAL)
      | some data =>
        let msyms := (syms.filterMap id).filter
          (fun s => (s.st_shndx : Int) == maps_shndx)
        let nr_maps := msyms.length
        if nr_maps = 0 then .ok []
        else
          let map_def_sz := data.length / nr_maps
          if data.length = 0 ∨ data.length % nr_maps ≠ 0 then .error (-EINVAL)
          else
            match msyms.mapM (init_one_map strtab data map_def_sz) with
            | .error e => .error e
            | .ok maps => .ok (List.insertionSort map_le maps)

/-- `bpf_program__init` (libbpf.c:275-311): reject a section smaller than
one instruction record, else copy `size / 8` instruction records; kind
defaults to kprobe, instances to the "never loaded" sentinel. -/
def bpf_program__init (sec : elf_section) (idx : Nat) : Except Int bpf_program :=
  if sec.d_size < bpf_insn_size then .error (-EINVAL)
  else
    .ok { idx := (idx : Int)
          name := none
          prog_ifindex := 0
          section_name := sec.name
          insns := some (sec.insns.take (sec.d_size / bpf_insn_size))
          insns_cnt := sec.d_size / bpf_insn_size
          main_prog_cnt := 0
          type := BPF_PROG_TYPE_KPROBE
          expected_attach_type := 0
          reloc_desc := none
          instances_nr := -1
          instances_fds := none
          preprocessor := none }

/-- `section_have_execinstr` (libbpf.c:710-726): section index 0 or out of
range has no section (`elf_getscn` fails). -/
def section_have_execinstr (secs : List elf_section) (idx : Nat) : Bool :=
  match (if idx = 0 then none else secs.get? (idx - 1)) with
  | none => false
  | some s => (s.sh_flags &&& SHF_EXECINSTR) != 0

/-- The ephemeral parse state the sweep accumulates (the corresponding
fields of `struct bpf_object` and its `efile` member).  `btf_seen` records
that the reserved type-metadata section was encountered (its parse outcome
is non-fatal either way). -/
structure elf_state where
  license : List Nat
  kern_version : Nat
  maps_shndx : Int
  text_shndx : Int
  strtabidx : Nat
  symbols : Option (List (Option GElf_Sym))
  programs : List bpf_program
  reloc_secs : List elf_section
  maps : List bpf_map
  has_pseudo_calls : Bool
  btf_seen : Bool

/-- Initial parse state, as established by `bpf_object__new`
(libbpf.c:401-431): everything zeroed by `calloc` except
`maps_shndx = -1`. -/
def elf_state_init : elf_state :=
  { license := []
    kern_version := 0
    maps_shndx := -1
    text_shndx := 0
    strtabidx := 0
    symbols := none
    programs := []
    reloc_secs := []
    maps := []
    has_pseudo_calls := false
    btf_seen := false }

/-- One iteration of the section sweep of `bpf_object__elf_collect`
(libbpf.c:742-847), for the section at index `idx`. -/
def collect_section (secs : List elf_section) (st : elf_state) (idx : Nat)
    (sec : elf_section) : Except Int elf_state :=
  if sec.name = "license" then
    -- bpf_object__init_license: memcpy(obj->license, data, min(size, 63))
    .ok { st with license := sec.bytes.take 63 }
  else if sec.name = "version" then
    if sec.d_size ≠ 4 then .error (-LIBBPF_ERRNO__FORMAT)
    else .ok { st with kern_version := u32le sec.bytes 0 }
  else if sec.name = "maps" then .ok { st with maps_shndx := (idx : Int) }
  else if sec.name = BTF_ELF_SEC then .ok { st with btf_seen := true }
  else if sec.sh_type = SHT_SYMTAB then
    if st.symbols.isSome then .error (-LIBBPF_ERRNO__FORMAT)
    else .ok { st with symbols := some sec.syms, strtabidx := sec.sh_link }
  else if sec.sh_type = SHT_PROGBITS ∧ sec.sh_flags &&& SHF_EXECINSTR ≠ 0 ∧
      0 < sec.d_size then
    let st1 := if sec.name = ".text" then { st with text_shndx := (idx : Int) }
               else st
    match bpf_program__init sec idx with
    | .error e => .error e
    | .ok prog => .ok { st1 with programs := st1.programs ++ [prog] }
  else if sec.sh_type = SHT_REL then
    if section_have_execinstr secs sec.sh_info then
      .ok { st with reloc_secs := st.reloc_secs ++ [sec] }
    else .ok st
  else .ok st

/-- The sweep over all sections, numbering them from 1 as `elf_nextscn`
does. -/
def collect_sections (secs : List elf_section) (st : elf_state) (idx : Nat) :
    List elf_section → Except Int elf_state
  | [] => .ok st
  | sec :: rest =>
    match collect_section secs st idx sec with
    | .error e => .error e
    | .ok st1 => collect_sections secs st1 (idx + 1) rest

/-- `bpf_object__init_prog_names` (libbpf.c:348-399) for one program: first
global symbol living in the program's defining section names it; a program
in `.text` with no such symbol is named ".text"; anything else is
`-EINVAL`.  (`elf_strptr` failure is not modelled: `strtab` is total.) -/
def init_prog_name (strtab : Nat → String) (syms : List (Option GElf_Sym))
    (text_shndx : Int) (prog : bpf_program) : Except Int bpf_program :=
  match (syms.filterMap id).find?
      (fun s => (s.st_shndx : Int) == prog.idx && s.st_bind == STB_GLOBAL) with
  | some s => .ok { prog with name := some (strtab s.st_name) }
  | none =>
    if prog.idx = text_shndx then .ok { prog with name := some ".text" }
    else .error (-EINVAL)

/-- `bpf_object__init_prog_names` over the whole program table. -/
def bpf_object__init_prog_names (strtab : Nat → String) (st : elf_state) :
    Except Int elf_state :=
  match st.programs.mapM
      (init_prog_name strtab (st.symbols.getD []) st.text_shndx) with
  | .error e => .error e
  | .ok progs => .ok { st with programs := progs }

/--
Embedding of `bpf_object__elf_collect` (libbpf.c:728-861): the sweep, then
the string-table index check — NOTE: the C code returns the POSITIVE value
`LIBBPF_ERRNO__FORMAT` there, unlike every other error path in the function
— then the map table build (when a maps section was seen) and program
naming.
-/
def bpf_object__elf_collect (strtab : Nat → String) (secs : List elf_section) :
    Except Int elf_state :=
  match collect_sections secs elf_state_init 1 secs with
  | .error e => .error e
  | .ok st =>
    if st.strtabidx = 0 ∨ secs.length ≤ st.strtabidx then
      .error LIBBPF_ERRNO__FORMAT
    else
      let after_maps : Except Int elf_state :=
        if 0 ≤ st.maps_shndx then
          match bpf_object__init_maps strtab st.maps_shndx st.symbols
              ((secs.get? (st.maps_shndx.toNat - 1)).map elf_section.bytes) with
          | .error e => .error e
          | .ok maps => .ok { st with maps := maps }
        else .ok st
      match after_maps with
      | .error e => .error e
      | .ok st1 => bpf_object__init_prog_names strtab st1

/-- One iteration of the entry loop of `bpf_program__collect_reloc`
(libbpf.c:899-967).  Returns the decoded entry, or `none` for the
`continue` of the call branch after recording `has_pseudo_calls` — that
flag is threaded by the caller.  Reading `insns[insn_idx]` out of range is
undefined behaviour in C; it is modelled as the zero instruction. -/
def collect_one_reloc (syms : List (Option GElf_Sym)) (maps : List bpf_map)
    (maps_shndx text_shndx : Int) (prog : bpf_program)
    (rel? : Option GElf_Rel) : Except Int reloc_desc :=
  match rel? with
  | none => .error (-LIBBPF_ERRNO__FORMAT)
  | some rel =>
    match syms.getD rel.r_sym none with
    | none => .error (-LIBBPF_ERRNO__FORMAT)
    | some sym =>
      if (sym.st_shndx : Int) ≠ maps_shndx ∧ (sym.st_shndx : Int) ≠ text_shndx
      then .error (-LIBBPF_ERRNO__RELOC)
      else
        let insn_idx := rel.r_offset / bpf_insn_size
        let insn := (prog.insns.getD []).getD insn_idx default
        if insn.code = BPF_CALL_CODE then
          if insn.src_reg ≠ BPF_PSEUDO_CALL then .error (-LIBBPF_ERRNO__RELOC)
          else .ok (.RELO_CALL insn_idx sym.st_value)
        else if insn.code ≠ BPF_LD_IMM_DW_CODE then .error (-LIBBPF_ERRNO__RELOC)
        else
          match maps.findIdx? (fun m => m.offset == sym.st_value) with
          | none => .error (-LIBBPF_ERRNO__RELOC)
          | some map_idx => .ok (.RELO_LD64 insn_idx map_idx)

/-- `bpf_program__collect_reloc` (libbpf.c:877-969) over one relocation
section: decode every entry; the boolean conjunct is whether any entry set
`obj->has_pseudo_calls`. -/
def bpf_program__collect_reloc (syms : List (Option GElf_Sym))
    (maps : List bpf_map) (maps_shndx text_shndx : Int) (prog : bpf_program)
    (rels : List (Option GElf_Rel)) : Except Int (List reloc_desc × Bool) :=
  match rels.mapM (collect_one_reloc syms maps maps_shndx text_shndx prog) with
  | .error e => .error e
  | .ok ds =>
    .ok (ds, ds.any (fun d => match d with
                              | .RELO_CALL _ _ => true
                              | .RELO_LD64 _ _ => false))

/-- The loop of `bpf_object__collect_reloc` (libbpf.c:1254-1287): each
pending relocation section is matched to the program defined in the section
it targets, which receives the decoded array. -/
def collect_reloc_secs (st : elf_state) : List elf_section → Except Int elf_state
  | [] => .ok st
  | sec :: rest =>
    if sec.sh_type ≠ SHT_REL then .error (-LIBBPF_ERRNO__INTERNAL)
    else
      match st.programs.findIdx? (fun p => p.idx == (sec.sh_info : Int)) with
      | none => .error (-LIBBPF_ERRNO__RELOC)
      | some pi =>
        match st.programs.get? pi with
        | none => .error (-LIBBPF_ERRNO__INTERNAL)
        | some prog =>
          match bpf_program__collect_reloc (st.symbols.getD []) st.maps
              st.maps_shndx st.text_shndx prog sec.rels with
          | .error e => .error e
          | .ok (ds, pseudo) =>
            collect_reloc_secs
              { st with
                programs := st.programs.set pi { prog with reloc_desc := some ds }
                has_pseudo_calls := st.has_pseudo_calls || pseudo } rest

/-- `bpf_object__collect_reloc` proper (the `obj_elf_valid` guard is the
open pipeline's invariant and holds there). -/
def bpf_object__collect_reloc (st : elf_state) : Except Int elf_state :=
  collect_reloc_secs st st.reloc_secs

/-- `bpf_object__validate` (libbpf.c:1496-1504). -/
def bpf_object__validate (st : elf_state) (needs_kver : Bool) : Except Int Unit :=
  if needs_kver ∧ st.kern_version = 0 then .error (-LIBBPF_ERRNO__KVERSION)
  else .ok ()

/-- The ELF header fields `bpf_object__elf_init` and
`bpf_object__check_endianness` read, plus the section table and the string
table the object carries. -/
structure elf_input where
  e_type : Nat
  e_machine : Nat
  ei_data : Nat
  sections : List elf_section
  strtab : Nat → String

/-- The header checks of `bpf_object__elf_init` (libbpf.c:451-508); the
libelf open/parse steps are modelled as succeeding. -/
def bpf_object__elf_init (inp : elf_input) : Except Int Unit :=
  if inp.e_type ≠ ET_REL ∨ (inp.e_machine ≠ 0 ∧ inp.e_machine ≠ EM_BPF) then
    .error (-LIBBPF_ERRNO__FORMAT)
  else .ok ()

/-- `bpf_object__check_endianness` (libbpf.c:510-536); `host_little` is what
the C code discovers by inspecting the first byte of `endian = 1`. -/
def bpf_object__check_endianness (host_little : Bool) (ei_data : Nat) : Except Int Unit :=
  if ei_data = ELFDATA2LSB then
    if host_little then .ok () else .error (-LIBBPF_ERRNO__ENDIAN)
  else if ei_data = ELFDATA2MSB then
    if host_little then .error (-LIBBPF_ERRNO__ENDIAN) else .ok ()
  else .error (-LIBBPF_ERRNO__ENDIAN)

/-- `MAX_ERRNO` (linux/err.h). -/
def MAX_ERRNO : Nat := 4095

/-- `ERR_PTR(long err)`: the error value reinterpreted as a 64-bit pointer. -/
def ERR_PTR (err : Int) : Nat := (err % 2 ^ 64).toNat

/-- `IS_ERR_VALUE(x)`: `x >= (unsigned long)-MAX_ERRNO`, what `IS_ERR` and
`libbpf_get_error` use to recognise an error sentinel. -/
def IS_ERR_VALUE (p : Nat) : Bool := 2 ^ 64 - MAX_ERRNO ≤ p

/--
Embedding of `__bpf_object__open` (libbpf.c:1506-1533): the parse pipeline
threaded by `CHECK_ERR`; any non-zero phase result is handed to the caller
as `ERR_PTR(err)` (`.inl`), success yields the parsed object (`.inr`).
-/
def __bpf_object__open (host_little : Bool) (inp : elf_input)
    (needs_kver : Bool) : Nat ⊕ elf_state :=
  match bpf_object__elf_init inp with
  | .error e => .inl (ERR_PTR e)
  | .ok _ =>
    match bpf_object__check_endianness host_little inp.ei_data with
    | .error e => .inl (ERR_PTR e)
    | .ok _ =>
      match bpf_object__elf_collect inp.strtab inp.sections with
      | .error e => .inl (ERR_PTR e)
      | .ok st =>
        match bpf_object__collect_reloc st with
        | .error e => .inl (ERR_PTR e)
        | .ok st1 =>
          match bpf_object__validate st1 needs_kver with
          | .error e => .inl (ERR_PTR e)
          | .ok _ => .inr st1

/-! ## Auxiliary predicates and concrete inputs used by the theorems -/

/-- Whether a relocation entry is a local-call entry. -/
def reloc_is_call : reloc_desc → Bool
  | .RELO_CALL _ _ => true
  | .RELO_LD64 _ _ => false

/-- The instruction indices of a relocation-entry list. -/
def reloc_idxs (relos : List reloc_desc) : List Nat :=
  relos.map (fun r => match r with
                      | .RELO_CALL i _ => i
                      | .RELO_LD64 i _ => i)

/-- The imm adjustment a local-call entry at index `i` applies once the
program's `main_prog_cnt` is `c0`. -/
def call_patch (c0 i : Nat) (insn : bpf_insn) : bpf_insn :=
  { insn with imm := toInt32 (insn.imm + (c0 : Int) - (i : Int)) }

/-- Plain offset order on maps (what the comparator means when the
`size_t`-to-`int` conversion cannot overflow). -/
def map_off_le (a b : bpf_map) : Prop := a.offset ≤ b.offset

instance : DecidableRel map_off_le := fun a b => Nat.decLe _ _

instance : IsTotal bpf_map map_off_le := ⟨fun a b => Nat.le_total a.offset b.offset⟩

instance : IsTrans bpf_map map_off_le := ⟨fun _ _ _ h1 h2 => Nat.le_trans h1 h2⟩

/-- A concrete map state used to exercise `bpf_map__reuse_fd`: the prior
descriptor 4 is held. -/
def reuse_map_in : bpf_map :=
  { fd := 4
    name := "m"
    offset := 0
    map_ifindex := 0
    mdef := { type := 1, key_size := 4, value_size := 8, max_entries := 16,
              map_flags := 0 }
    btf_key_type_id := 0
    btf_value_type_id := 0 }

/-- A concrete environment for `bpf_map__reuse_fd` in which every external
call succeeds except the final `close` of the prior descriptor
(`close` returns -1 with `errno` 9/EBADF). -/
def reuse_env_close_fails : reuse_env :=
  { get_info_ret := 0
    info := { name := "n", type := 2, key_size := 4, value_size := 4,
              max_entries := 32, map_flags := 0, btf_key_type_id := 0,
              btf_value_type_id := 0 }
    strdup_ok := true
    open_ret := 7
    dup3_ok := true
    close_ret := -1
    errno_val := 9 }

/-- A concrete environment for `bpf_map__reuse_fd` in which the initial
kernel query fails. -/
def reuse_env_query_fails : reuse_env :=
  { get_info_ret := -9
    info := { name := "n", type := 2, key_size := 4, value_size := 4,
              max_entries := 32, map_flags := 0, btf_key_type_id := 0,
              btf_value_type_id := 0 }
    strdup_ok := true
    open_ret := 7
    dup3_ok := true
    close_ret := 0
    errno_val := 9 }

/-- A one-instruction `exit` body. -/
def exit_insn : bpf_insn := { code := 0x95, dst_reg := 0, src_reg := 0, off := 0, imm := 0 }

/-- A concrete program occupying the `.text` section (index 1). -/
def text_prog : bpf_program :=
  { idx := 1
    name := some ".text"
    prog_ifindex := 0
    section_name := ".text"
    insns := some [exit_insn]
    insns_cnt := 1
    main_prog_cnt := 0
    type := BPF_PROG_TYPE_SOCKET_FILTER
    expected_attach_type := 0
    reloc_desc := none
    instances_nr := -1
    instances_fds := none
    preprocessor := none }

/-- A concrete object whose only program is the text program and whose
`has_pseudo_calls` flag is clear (a `.text` section with no local calls). -/
def text_only_obj : bpf_object :=
  { license := "GPL"
    kern_version := 0
    programs := [text_prog]
    maps := []
    loaded := false
    has_pseudo_calls := false
    btf := false
    efile_text_shndx := 1 }

/-- A submission oracle whose every submission succeeds with descriptor 5. -/
def always_ok_prog_kernel : prog_kernel :=
  { lp := fun _ _ => { first_ret := 5, first_log_nonempty := false,
                       retry_ret := 0, log_alloc := true } }

/-- A license-only section: after the sweep no symbol table was seen, so the
string-table index is still 0. -/
def license_only_sec : elf_section :=
  { name := "license"
    sh_type := SHT_PROGBITS
    sh_flags := 0
    sh_link := 0
    sh_info := 0
    d_size := 4
    bytes := [71, 80, 76, 0]
    syms := []
    rels := []
    insns := [] }

/-- A malformed `version` section (3 bytes instead of 4). -/
def bad_version_sec : elf_section :=
  { name := "version"
    sh_type := SHT_PROGBITS
    sh_flags := 0
    sh_link := 0
    sh_info := 0
    d_size := 3
    bytes := [1, 0, 0]
    syms := []
    rels := []
    insns := [] }

/-- ELF input holding only the license section: a relocatable little-endian
BPF object with no symbol table. -/
def license_only_input : elf_input :=
  { e_type := ET_REL
    e_machine := EM_BPF
    ei_data := ELFDATA2LSB
    sections := [license_only_sec]
    strtab := fun _ => "" }

/-- ELF input whose `version` section has the wrong size: an ordinary
(negative-code) parse failure, for contrast. -/
def bad_version_input : elf_input :=
  { e_type := ET_REL
    e_machine := EM_BPF
    ei_data := ELFDATA2LSB
    sections := [bad_version_sec]
    strtab := fun _ => "" }

/-- A local-call instruction (call opcode, local-call pseudo source
register, immediate -1 awaiting relocation). -/
def call_insn : bpf_insn :=
  { code := BPF_CALL_CODE, dst_reg := 0, src_reg := BPF_PSEUDO_CALL, off := 0,
    imm := -1 }

/-- A concrete caller program in section 2 holding one local-call
relocation at instruction 0 into `.text` byte offset 0. -/
def caller_prog : bpf_program :=
  { idx := 2
    name := some "caller"
    prog_ifindex := 0
    section_name := "kprobe/foo"
    insns := some [call_insn]
    insns_cnt := 1
    main_prog_cnt := 0
    type := BPF_PROG_TYPE_KPROBE
    expected_attach_type := 0
    reloc_desc := some [.RELO_CALL 0 0]
    instances_nr := -1
    instances_fds := none
    preprocessor := none }

/-- A concrete object holding the text program (section 1) and the caller
program (section 2). -/
def reloc_obj : bpf_object :=
  { license := "GPL"
    kern_version := 0
    programs := [text_prog, caller_prog]
    maps := []
    loaded := false
    has_pseudo_calls := true
    btf := false
    efile_text_shndx := 1 }

/-- An all-zero map definition at a given offset, as the map table builder
produces it from an all-zero maps section. -/
def zero_def_map (off : Nat) : bpf_map :=
  { fd := -1
    name := ""
    offset := off
    map_ifindex := 0
    mdef := { type := 0, key_size := 0, value_size := 0, max_entries := 0,
              map_flags := 0 }
    btf_key_type_id := 0
    btf_value_type_id := 0 }

/-! ## Theorems -/

/--
C3 counterexample: for a program already declared with the kprobe kind, a
failed submission with an empty log and a small instruction count is *not*
retried — the code reports `KVER` even when the kprobe retry would have
succeeded (`retry_ret = 3 ≥ 0`), where the claim's unconditional-retry
reading predicts `PROGTYPE`.
-/
theorem load_program_kprobe_retry_counterexample :
    load_program ⟨-1, false, 3, true⟩ BPF_PROG_TYPE_KPROBE 0 "" (some [exit_insn]) 2 "" 0 0 =
      .error (-LIBBPF_ERRNO__KVER) ∧
    load_program_spec_words ⟨-1, false, 3, true⟩ BPF_PROG_TYPE_KPROBE (some [exit_insn]) 2 =
      .error (-LIBBPF_ERRNO__PROGTYPE) ∧
    (-LIBBPF_ERRNO__KVER : Int) ≠ -LIBBPF_ERRNO__PROGTYPE :=
  ⟨rfl, rfl, by decide⟩

/--
C3 (amended): for a submission with non-null instructions, non-zero count
and an allocated log buffer, `load_program` classifies: non-negative kernel
return is success with the descriptor captured; failure with non-empty log
is `VERIFY`; else count ≥ `BPF_MAXINSNS` is `PROG2BIG`; otherwise the
kprobe retry happens only when the declared kind is not already kprobe —
retry success is `PROGTYPE`, and retry failure or an already-kprobe kind is
`KVER`.
-/
theorem load_program_classified (k : load_kernel) (ty at_ : Nat) (nm : String)
    (insns : List bpf_insn) (cnt : Nat) (lic : String) (kv ifx : Nat)
    (hcnt : cnt ≠ 0) (hlog : k.log_alloc = true) :
    (0 ≤ k.first_ret →
      load_program k ty at_ nm (some insns) cnt lic kv ifx = .ok k.first_ret) ∧
    (k.first_ret < 0 → k.first_log_nonempty = true →
      load_program k ty at_ nm (some insns) cnt lic kv ifx =
        .error (-LIBBPF_ERRNO__VERIFY)) ∧
    (k.first_ret < 0 → k.first_log_nonempty = false → BPF_MAXINSNS ≤ cnt →
      load_program k ty at_ nm (some insns) cnt lic kv ifx =
        .error (-LIBBPF_ERRNO__PROG2BIG)) ∧
    (k.first_ret < 0 → k.first_log_nonempty = false → cnt < BPF_MAXINSNS →
      ty ≠ BPF_PROG_TYPE_KPROBE → 0 ≤ k.retry_ret →
      load_program k ty at_ nm (some insns) cnt lic kv ifx =
        .error (-LIBBPF_ERRNO__PROGTYPE)) ∧
    (k.first_ret < 0 → k.first_log_nonempty = false → cnt < BPF_MAXINSNS →
      (ty = BPF_PROG_TYPE_KPROBE ∨ k.retry_ret < 0) →
      load_program k ty at_ nm (some insns) cnt lic kv ifx =
        .error (-LIBBPF_ERRNO__KVER)) := by
  refine ⟨?_, ?_, ?_, ?_, ?_⟩
  · intro h
    simp [load_program, hcnt, h]
  · intro h1 h2
    simp [load_program, hcnt, Int.not_le.mpr h1, hlog, h2]
  · intro h1 h2 h3
    simp [load_program, hcnt, Int.not_le.mpr h1, hlog, h2, h3]
  · intro h1 h2 h3 h4 h5
    simp [load_program, hcnt, Int.not_le.mpr h1, hlog, h2, Nat.not_le.mpr h3, h4, h5]
  · intro h1 h2 h3 h4
    rcases h4 with h4 | h4
    · simp [load_program, hcnt, Int.not_le.mpr h1, hlog, h2, Nat.not_le.mpr h3, h4]
    · simp [load_program, hcnt, Int.not_le.mpr h1, hlog, h2, Nat.not_le.mpr h3,
            Int.not_le.mpr h4]

/-- Witness for `load_program_classified` at a concrete input (kind 7,
failed submission, empty log, small count, failing retry: `KVER`). -/
theorem load_program_classified_witness :
    load_program ⟨-3, false, -2, true⟩ 7 0 "x" (some [exit_insn]) 1 "GPL" 0 0 =
      .error (-LIBBPF_ERRNO__KVER) :=
  (load_program_classified ⟨-3, false, -2, true⟩ 7 0 "x" [exit_insn] 1 "GPL" 0 0
      (by decide) rfl).2.2.2.2 (by decide) rfl (by decide) (Or.inr (by decide))

/--
C9: for a program whose declared kind is already kprobe, a failed
submission with an empty verifier log and a count below the hard maximum is
not submitted a second time — the result does not depend on the retry
oracle at all — and it is `KVER` when the log buffer was allocated, else
the generic `LOAD` error.
-/
theorem load_program_no_retry_when_kprobe (k : load_kernel) (at_ : Nat)
    (nm : String) (insns : List bpf_insn) (cnt : Nat) (lic : String)
    (kv ifx : Nat) (hcnt : cnt ≠ 0) (hfail : k.first_ret < 0)
    (hlog : k.first_log_nonempty = false) (hmax : cnt < BPF_MAXINSNS) :
    load_program k BPF_PROG_TYPE_KPROBE at_ nm (some insns) cnt lic kv ifx =
      (if k.log_alloc then .error (-LIBBPF_ERRNO__KVER)
       else .error (-LIBBPF_ERRNO__LOAD)) ∧
    (∀ r : Int,
      load_program { k with retry_ret := r } BPF_PROG_TYPE_KPROBE at_ nm
          (some insns) cnt lic kv ifx =
        load_program k BPF_PROG_TYPE_KPROBE at_ nm (some insns) cnt lic kv ifx) := by
  constructor
  · simp [load_program, hcnt, Int.not_le.mpr hfail, hlog, Nat.not_le.mpr hmax]
  · intro r
    simp [load_program, hcnt, Int.not_le.mpr hfail, hlog, Nat.not_le.mpr hmax]

/-- Witness for `load_program_no_retry_when_kprobe` at a concrete input. -/
theorem load_program_no_retry_when_kprobe_witness :
    load_program ⟨-7, false, 11, true⟩ BPF_PROG_TYPE_KPROBE 0 "k" (some [exit_insn]) 3 "GPL" 4 0 =
      (if (true : Bool) then .error (-LIBBPF_ERRNO__KVER)
       else .error (-LIBBPF_ERRNO__LOAD)) :=
  (load_program_no_retry_when_kprobe ⟨-7, false, 11, true⟩ 0 "k" [exit_insn] 3 "GPL" 4 0
      (by decide) (by decide) rfl (by decide)).1

/--
C1 counterexample: when every step of `bpf_map__reuse_fd` succeeds except
the final `close` of the map's prior descriptor, the function fails (returns
`-errno` = -9) yet the map's descriptor field has been reset from its prior
value 4 to -1 — the prior state is not untouched.
-/
theorem bpf_map__reuse_fd_close_failure_mutates :
    (bpf_map__reuse_fd reuse_env_close_fails reuse_map_in 4).1 = -9 ∧
    (bpf_map__reuse_fd reuse_env_close_fails reuse_map_in 4).2.fd = -1 ∧
    reuse_map_in.fd = 4 :=
  ⟨rfl, rfl, rfl⟩

/--
C1 (amended): when `bpf_map__reuse_fd` fails, either the map is fully
untouched (failures while querying the kernel, duplicating the name, or
duplicating the descriptor), or — only when the prior descriptor was held
(≥ 0) and its `close` failed — the name, definition record and type ids are
untouched but the descriptor field has been reset to -1.
-/
theorem bpf_map__reuse_fd_failure_leaves_state (env : reuse_env)
    (map : bpf_map) (fd : Int) (h : (bpf_map__reuse_fd env map fd).1 ≠ 0) :
    (bpf_map__reuse_fd env map fd).2 = map ∨
      (0 ≤ map.fd ∧ env.close_ret ≠ 0 ∧
        (bpf_map__reuse_fd env map fd).2 = { map with fd := -1 }) := by
  by_cases h1 : env.get_info_ret ≠ 0
  · left
    simp [bpf_map__reuse_fd, h1]
  · by_cases h2 : env.strdup_ok
    · by_cases h3 : env.open_ret < 0
      · left
        simp [bpf_map__reuse_fd, h1, h2, h3]
      · by_cases h4 : env.dup3_ok
        · by_cases h5 : (if 0 ≤ map.fd then env.close_ret else 0) ≠ 0
          · right
            by_cases h6 : 0 ≤ map.fd
            · refine ⟨h6, ?_, ?_⟩
              · simpa [h6] using h5
              · simp [bpf_map__reuse_fd, h1, h2, h3, h4, h5]
            · exact absurd h5 (by simp [h6])
          · exfalso
            apply h
            simp [bpf_map__reuse_fd, h1, h2, h3, h4, h5]
        · left
          simp [bpf_map__reuse_fd, h1, h2, h3, h4]
    · left
      simp [bpf_map__reuse_fd, h1, h2]

/-- Witness for `bpf_map__reuse_fd_failure_leaves_state`: the kernel query
fails, the map is untouched. -/
theorem bpf_map__reuse_fd_failure_leaves_state_witness :
    (bpf_map__reuse_fd reuse_env_query_fails reuse_map_in 4).2 = reuse_map_in ∨
      (0 ≤ reuse_map_in.fd ∧ reuse_env_query_fails.close_ret ≠ 0 ∧
        (bpf_map__reuse_fd reuse_env_query_fails reuse_map_in 4).2 =
          { reuse_map_in with fd := -1 }) :=
  bpf_map__reuse_fd_failure_leaves_state reuse_env_query_fails reuse_map_in 4
    (by decide)

/--
C10: with a maps section present, if no (readable) symbol lives in the maps
section the builder succeeds with an empty map table whatever the section
size is; with at least one map symbol, a section size of zero or one not
divisible by the symbol count fails with `-EINVAL` (and no map is
produced).
-/
theorem init_maps_no_symbols_and_size_check (strtab : Nat → String)
    (maps_shndx : Int) (syms : List (Option GElf_Sym)) (data : List Nat)
    (hsh : 0 ≤ maps_shndx) :
    ((syms.filterMap id).filter (fun s => (s.st_shndx : Int) == maps_shndx) = [] →
      bpf_object__init_maps strtab maps_shndx (some syms) (some data) = .ok []) ∧
    ((syms.filterMap id).filter (fun s => (s.st_shndx : Int) == maps_shndx) ≠ [] →
      (data.length = 0 ∨
        data.length %
          ((syms.filterMap id).filter
            (fun s => (s.st_shndx : Int) == maps_shndx)).length ≠ 0) →
      bpf_object__init_maps strtab maps_shndx (some syms) (some data) =
        .error (-EINVAL)) := by
  constructor
  · intro hempty
    simp [bpf_object__init_maps, Int.not_lt.mpr hsh, hempty]
  · intro hne hsz
    have hlen : ((syms.filterMap id).filter
        (fun s => (s.st_shndx : Int) == maps_shndx)).length ≠ 0 := by
      simpa [List.length_eq_zero] using hne
    rcases hsz with h0 | hmod
    · simp [bpf_object__init_maps, Int.not_lt.mpr hsh, hlen, h0]
    · simp [bpf_object__init_maps, Int.not_lt.mpr hsh, hlen, hmod]

/-- Witness for `init_maps_no_symbols_and_size_check`: one symbol in
section 3, maps section index 2 — no map symbol, empty table. -/
theorem init_maps_no_symbols_and_size_check_witness :
    bpf_object__init_maps (fun _ => "") 2 (some [some ⟨0, 0, 3, 0⟩]) (some [1, 2, 3]) =
      .ok [] :=
  (init_maps_no_symbols_and_size_check (fun _ => "") 2 [some ⟨0, 0, 3, 0⟩] [1, 2, 3]
      (by decide)).1 (by decide)

/--
C5: for a map entry whose `D`-byte definition record fits the section
(`offset + D ≤ size`): when `D` is at most the native record size, exactly
those `D` bytes form the definition and the rest is zero; when `D` exceeds
it, the entry fails with `-EINVAL` exactly when some byte of the
`D - native` tail is nonzero, and otherwise the first native-size bytes
form the definition.
-/
theorem init_one_map_def_rule (strtab : Nat → String) (data : List Nat)
    (D : Nat) (sym : GElf_Sym) (hbound : sym.st_value + D ≤ data.length) :
    (D ≤ bpf_map_def_size →
      init_one_map strtab data D sym =
        .ok { fd := -1, name := strtab sym.st_name, offset := sym.st_value,
              map_ifindex := 0,
              mdef := decode_map_def ((data.drop sym.st_value).take D ++
                        List.replicate (bpf_map_def_size - D) 0),
              btf_key_type_id := 0, btf_value_type_id := 0 }) ∧
    (bpf_map_def_size < D →
      ((init_one_map strtab data D sym = .error (-EINVAL)) ↔
        ∃ b ∈ ((data.drop sym.st_value).take D).drop bpf_map_def_size, b ≠ 0) ∧
      ((∀ b ∈ ((data.drop sym.st_value).take D).drop bpf_map_def_size, b = 0) →
        init_one_map strtab data D sym =
          .ok { fd := -1, name := strtab sym.st_name, offset := sym.st_value,
                map_ifindex := 0,
                mdef := decode_map_def
                  (((data.drop sym.st_value).take D).take bpf_map_def_size),
                btf_key_type_id := 0, btf_value_type_id := 0 })) := by
  have hnb : ¬data.length < sym.st_value + D := Nat.not_lt.mpr hbound
  constructor
  · intro hle
    simp [init_one_map, map_def_bytes, hnb, hle, List.take_take,
          Nat.min_eq_left hle]
  · intro hgt
    have hngt : ¬D ≤ bpf_map_def_size := Nat.not_le.mpr hgt
    have hmin : min bpf_map_def_size D = bpf_map_def_size :=
      Nat.min_eq_left (Nat.le_of_lt hgt)
    constructor
    · constructor
      · intro herr
        by_cases hEx : ∃ x ∈ ((data.drop sym.st_value).take D).drop bpf_map_def_size,
            ¬x = 0
        · obtain ⟨b, hb, hbz⟩ := hEx
          exact ⟨b, hb, hbz⟩
        · exfalso
          simp [init_one_map, map_def_bytes, hnb, hngt, hEx] at herr
      · rintro ⟨b, hb, hbz⟩
        have hEx : ∃ x ∈ ((data.drop sym.st_value).take D).drop bpf_map_def_size,
            ¬x = 0 := ⟨b, hb, hbz⟩
        simp [init_one_map, map_def_bytes, hnb, hngt, hEx]
    · intro hall
      have hEx : ¬∃ x ∈ ((data.drop sym.st_value).take D).drop bpf_map_def_size,
          ¬x = 0 := by
        rintro ⟨b, hb, hbz⟩
        exact hbz (hall b hb)
      simp [init_one_map, map_def_bytes, hnb, hngt, hEx, List.take_take, hmin]

/-- Witness for `init_one_map_def_rule`: a 24-byte record with an all-zero
4-byte tail is accepted and its native 20-byte prefix forms the
definition. -/
theorem init_one_map_def_rule_witness :
    init_one_map (fun _ => "cnt")
        [1, 0, 0, 0, 4, 0, 0, 0, 8, 0, 0, 0, 16, 0, 0, 0, 0, 0, 0, 0, 0, 0, 0, 0]
        24 ⟨0, 1, 5, 0⟩ =
      .ok { fd := -1, name := "cnt", offset := (0 : Nat), map_ifindex := 0,
            mdef := decode_map_def
              ((([1, 0, 0, 0, 4, 0, 0, 0, 8, 0, 0, 0, 16, 0, 0, 0, 0, 0, 0, 0,
                  0, 0, 0, 0] : List Nat).drop 0).take 24 |>.take bpf_map_def_size),
            btf_key_type_id := 0, btf_value_type_id := 0 } :=
  ((init_one_map_def_rule (fun _ => "cnt")
      [1, 0, 0, 0, 4, 0, 0, 0, 8, 0, 0, 0, 16, 0, 0, 0, 0, 0, 0, 0, 0, 0, 0, 0]
      24 ⟨0, 1, 5, 0⟩ (by decide)).2 (by decide)).2 (by decide)

/--
C6: the string-table index check of `bpf_object__elf_collect` fires on an
object with no symbol table, but returns the POSITIVE `LIBBPF_ERRNO__FORMAT`
(4001) — unlike the `version`-section failure of the same sweep, which
returns −4001.  Propagated through `__bpf_object__open`'s `ERR_PTR`, the
positive code yields pointer value 4001, which `IS_ERR_VALUE` does NOT
recognise as an error sentinel, so the caller cannot detect the failure;
the negative code yields a detectable sentinel.
-/
theorem elf_collect_strtab_error_not_detectable :
    bpf_object__elf_collect (fun _ => "") [license_only_sec] =
      .error LIBBPF_ERRNO__FORMAT ∧
    __bpf_object__open true license_only_input false =
      .inl (ERR_PTR LIBBPF_ERRNO__FORMAT) ∧
    ERR_PTR LIBBPF_ERRNO__FORMAT = 4001 ∧
    IS_ERR_VALUE (ERR_PTR LIBBPF_ERRNO__FORMAT) = false ∧
    __bpf_object__open true bad_version_input false =
      .inl (ERR_PTR (-LIBBPF_ERRNO__FORMAT)) ∧
    IS_ERR_VALUE (ERR_PTR (-LIBBPF_ERRNO__FORMAT)) = true := by
  refine ⟨rfl, rfl, by decide, by decide, rfl, by decide⟩

/-- Map creation never touches the `loaded` flag. -/
theorem create_maps_from_loaded (k : map_kernel) :
    ∀ fuel (obj : bpf_object) (i : Nat),
      ((create_maps_from k obj i fuel).2).loaded = obj.loaded := by
  intro fuel
  induction fuel with
  | zero => intro obj i; rfl
  | succ n ih =>
    intro obj i
    simp only [create_maps_from]
    repeat' split
    all_goals first | rfl | exact ih _ _

/-- Relocation never touches the `loaded` flag. -/
theorem relocate_from_loaded :
    ∀ fuel (obj : bpf_object) (i : Nat),
      ((bpf_object__relocate_from obj i fuel).2).loaded = obj.loaded := by
  intro fuel
  induction fuel with
  | zero => intro obj i; rfl
  | succ n ih =>
    intro obj i
    simp only [bpf_object__relocate_from]
    split
    · split
      · rfl
      · exact ih _ _
    · rfl

/-- Program submission never touches the `loaded` flag. -/
theorem load_progs_from_loaded (k : prog_kernel) :
    ∀ fuel (obj : bpf_object) (i : Nat),
      ((load_progs_from k obj i fuel).2).loaded = obj.loaded := by
  intro fuel
  induction fuel with
  | zero => intro obj i; rfl
  | succ n ih =>
    intro obj i
    simp only [load_progs_from]
    split
    · split
      · exact ih _ _
      · split
        · rfl
        · exact ih _ _
    · rfl

/-- After any call to `bpf_object__load`, the `loaded` flag is set: the
guarded path keeps it `true`, and the main path sets it before the phases
run (and never clears it, even on failure). -/
theorem bpf_object__load_sets_loaded (mk : map_kernel) (pk : prog_kernel)
    (obj : bpf_object) : ((bpf_object__load mk pk obj).2).loaded = true := by
  unfold bpf_object__load
  by_cases h : obj.loaded
  · simp [h]
  · simp only [h, Bool.false_eq_true, if_false]
    have h1 : ((bpf_object__create_maps mk { obj with loaded := true }).2).loaded
        = true := by
      rw [bpf_object__create_maps, create_maps_from_loaded]
    rcases hc : bpf_object__create_maps mk { obj with loaded := true } with ⟨e1, obj1⟩
    rw [hc] at h1
    replace h1 : obj1.loaded = true := h1
    simp only [hc]
    by_cases he1 : e1 ≠ 0
    · simp [he1, bpf_object__unload, h1]
    · simp only [he1, if_false]
      have h2 : ((bpf_object__relocate obj1).2).loaded = true := by
        rw [bpf_object__relocate, relocate_from_loaded]
        exact h1
      rcases hr : bpf_object__relocate obj1 with ⟨e2, obj2⟩
      rw [hr] at h2
      replace h2 : obj2.loaded = true := h2
      simp only [hr]
      by_cases he2 : e2 ≠ 0
      · simp [he2, bpf_object__unload, h2]
      · simp only [he2, if_false]
        have h3 : ((bpf_object__load_progs pk obj2).2).loaded = true := by
          rw [bpf_object__load_progs, load_progs_from_loaded]
          exact h2
        rcases hl : bpf_object__load_progs pk obj2 with ⟨e3, obj3⟩
        rw [hl] at h3
        replace h3 : obj3.loaded = true := h3
        simp only [hl]
        by_cases he3 : e3 ≠ 0
        · simp [he3, bpf_object__unload, h3]
        · simp [he3, h3]

/-- On an object whose `loaded` flag is set, `bpf_object__load` fails with
`-EINVAL` before running any phase, leaving the state unchanged. -/
theorem bpf_object__load_of_loaded (mk : map_kernel) (pk : prog_kernel)
    (s : bpf_object) (h : s.loaded = true) :
    bpf_object__load mk pk s = (-EINVAL, s) := by
  unfold bpf_object__load
  simp [h]

/--
C4: calling `bpf_object__load` a second time on the same object — whatever
the kernel did on the first call, which may have succeeded or failed —
makes the second call return `-EINVAL` and leaves the object's state
(maps, programs, descriptors, `loaded`) exactly as the first call left it.
-/
theorem bpf_object__load_twice_EINVAL (mk pk mk2 pk2 : _) (obj : bpf_object) :
    bpf_object__load mk2 pk2 ((bpf_object__load mk pk obj).2) =
      (-EINVAL, (bpf_object__load mk pk obj).2) :=
  bpf_object__load_of_loaded mk2 pk2 _ (bpf_object__load_sets_loaded mk pk obj)

/--
C7 counterexample: an object whose `.text` program exists but which has no
local calls (`has_pseudo_calls = false`).  The submission loop does NOT
skip the text program: it is not function storage, it is submitted, and it
receives instance descriptor 5 — the claim's "for every object, the loop
skips the program whose defining section is .text" is false here.
-/
theorem load_progs_submits_text_without_pseudo_calls :
    bpf_program__is_function_storage text_prog text_only_obj = false ∧
    ((bpf_object__load_progs always_ok_prog_kernel text_only_obj).2.programs.get? 0).map
        bpf_program.instances_fds = some (some [5]) ∧
    (bpf_object__load_progs always_ok_prog_kernel text_only_obj).1 = 0 :=
  ⟨rfl, rfl, rfl⟩

/-- The submission loop leaves programs defined in `.text` untouched when
the object has local calls. -/
theorem load_progs_from_text_untouched (k : prog_kernel) :
    ∀ fuel (obj : bpf_object) (i j : Nat) (p : bpf_program),
      obj.has_pseudo_calls = true →
      obj.programs.get? j = some p →
      p.idx = obj.efile_text_shndx →
      ((load_progs_from k obj i fuel).2).programs.get? j = some p := by
  intro fuel
  induction fuel with
  | zero =>
    intro obj i j p _ hget _
    exact hget
  | succ n ih =>
    intro obj i j p hp hget hidx
    simp only [load_progs_from]
    split
    · rename_i h
      by_cases hfs : bpf_program__is_function_storage (obj.programs.get ⟨i, h⟩) obj
        = true
      · simp only [hfs, if_true]
        exact ih obj (i + 1) j p hp hget hidx
      · have hne : (obj.programs.get ⟨i, h⟩).idx ≠ obj.efile_text_shndx := by
          intro hcontr
          apply hfs
          unfold bpf_program__is_function_storage
          rw [hcontr, hp]
          simp
        have hij : i ≠ j := by
          intro hij
          subst hij
          have hsome : obj.programs.get? i = some (obj.programs.get ⟨i, h⟩) :=
            List.get?_eq_get h
          rw [hsome] at hget
          cases hget
          exact hne hidx
        rcases hload : bpf_program__load (k.lp i) (obj.programs.get ⟨i, h⟩)
            obj.license obj.kern_version with ⟨err, prog1⟩
        simp only [hfs, Bool.false_eq_true, if_false, hload]
        have hget1 : ({ obj with programs := obj.programs.set i prog1 } :
            bpf_object).programs.get? j = some p := by
          show (obj.programs.set i prog1).get? j = some p
          exact (List.get?_set_ne prog1 obj.programs hij).trans hget
        by_cases herr : err ≠ 0
        · rw [if_pos herr]
          exact hget1
        · rw [if_neg herr]
          exact ih { obj with programs := obj.programs.set i prog1 } (i + 1) j p
            hp hget1 hidx
    · exact hget

/--
C7 (amended): for every object whose `has_pseudo_calls` flag is set, the
submission loop skips every program whose defining section is `.text`: such
programs come out of `bpf_object__load_progs` exactly as they went in — in
particular they receive no instance descriptors.
-/
theorem load_progs_skips_text_when_pseudo_calls (k : prog_kernel)
    (obj : bpf_object) (j : Nat) (p : bpf_program)
    (hp : obj.has_pseudo_calls = true)
    (hget : obj.programs.get? j = some p)
    (hidx : p.idx = obj.efile_text_shndx) :
    ((bpf_object__load_progs k obj).2).programs.get? j = some p :=
  load_progs_from_text_untouched k obj.programs.length obj 0 j p hp hget hidx

/-- Witness for `load_progs_skips_text_when_pseudo_calls`: the text-only
object with its local-call flag set keeps its text program untouched. -/
theorem load_progs_skips_text_when_pseudo_calls_witness :
    ((bpf_object__load_progs always_ok_prog_kernel
        { text_only_obj with has_pseudo_calls := true }).2).programs.get? 0 =
      some text_prog :=
  load_progs_skips_text_when_pseudo_calls always_ok_prog_kernel
    { text_only_obj with has_pseudo_calls := true } 0 text_prog rfl rfl rfl

/-- `toInt32` is the identity inside the 32-bit signed range. -/
theorem toInt32_eq_self {x : Int} (h1 : -2 ^ 31 ≤ x) (h2 : x < 2 ^ 31) :
    toInt32 x = x := by
  have e31 : (2 : Int) ^ 31 = 2147483648 := by norm_num
  have e32 : (2 : Int) ^ 32 = 4294967296 := by norm_num
  rw [e31] at h1 h2
  unfold toInt32
  rw [e31, e32, Int.emod_eq_of_lt (by omega) (by omega)]
  omega

/-- The first local-call entry relocated for a program: the entire text body
is appended, `main_prog_cnt` records the prior count, the count becomes the
sum, and the call at `i` is patched. -/
theorem bpf_program__reloc_text_first (obj : bpf_object)
    (prog text : bpf_program) (l tl : List bpf_insn) (i o : Nat)
    (hfind : bpf_object__find_prog_by_idx obj obj.efile_text_shndx = some text)
    (hne : prog.idx ≠ obj.efile_text_shndx)
    (hmain : prog.main_prog_cnt = 0)
    (hinsns : prog.insns = some l)
    (htext : text.insns = some tl)
    (htlen : tl.length = text.insns_cnt) :
    bpf_program__reloc_text obj prog (.RELO_CALL i o) =
      .ok { prog with
            insns := some ((l ++ tl).modify (call_patch prog.insns_cnt i) i)
            main_prog_cnt := prog.insns_cnt
            insns_cnt := prog.insns_cnt + text.insns_cnt } := by
  have htake : tl.take text.insns_cnt = tl := by
    rw [← htlen]
    exact List.take_length tl
  simp [bpf_program__reloc_text, hne, hmain, hfind, hinsns, htext, htake]
  rfl

/-- A later local-call entry (`main_prog_cnt` already set): only the call at
`i` is patched. -/
theorem bpf_program__reloc_text_subsequent (obj : bpf_object)
    (prog : bpf_program) (l : List bpf_insn) (i o : Nat)
    (hne : prog.idx ≠ obj.efile_text_shndx)
    (hmain : prog.main_prog_cnt ≠ 0)
    (hinsns : prog.insns = some l) :
    bpf_program__reloc_text obj prog (.RELO_CALL i o) =
      .ok { prog with
            insns := some (l.modify (call_patch prog.main_prog_cnt i) i) } := by
  simp [bpf_program__reloc_text, hne, hmain, hinsns]
  rfl

/-- Processing a list of local-call entries once `main_prog_cnt` is already
set to `c0`: each entry patches its own instruction (once, by distinctness)
and nothing else changes. -/
theorem relocate_entries_all_calls (obj : bpf_object) (c0 : Nat) (hc0 : 0 < c0) :
    ∀ (relos : List reloc_desc) (prog : bpf_program) (l : List bpf_insn),
      prog.insns = some l →
      prog.main_prog_cnt = c0 →
      prog.idx ≠ obj.efile_text_shndx →
      (∀ r ∈ relos, reloc_is_call r = true) →
      (∀ i ∈ reloc_idxs relos, i < c0) →
      (reloc_idxs relos).Nodup →
      ∃ l', relocate_entries obj prog relos = (0, { prog with insns := some l' }) ∧
        l'.length = l.length ∧
        (∀ j, j ∉ reloc_idxs relos → l'[j]? = l[j]?) ∧
        (∀ i o, reloc_desc.RELO_CALL i o ∈ relos →
          l'[i]? = (l[i]?).map (call_patch c0 i)) := by
  intro relos
  induction relos with
  | nil =>
    intro prog l hinsns hmain hne _ _ _
    refine ⟨l, ?_, rfl, fun j _ => rfl, ?_⟩
    · show (0, prog) = (0, { prog with insns := some l })
      rw [← hinsns]
    · intro i o h
      exact absurd h (List.not_mem_nil _)
  | cons r rest ih =>
    intro prog l hinsns hmain hne hcall hidx hnodup
    match r with
    | .RELO_LD64 i m =>
      exact absurd (hcall _ (List.mem_cons_self _ _)) (by simp [reloc_is_call])
    | .RELO_CALL i o =>
      subst hmain
      have hne0 : prog.main_prog_cnt ≠ 0 := by omega
      have hstep := bpf_program__reloc_text_subsequent obj prog l i o hne hne0 hinsns
      have hcons : reloc_idxs (reloc_desc.RELO_CALL i o :: rest) =
          i :: reloc_idxs rest := rfl
      rw [hcons] at hidx hnodup
      have hi_notin : i ∉ reloc_idxs rest := (List.nodup_cons.mp hnodup).1
      have hnodup' : (reloc_idxs rest).Nodup := (List.nodup_cons.mp hnodup).2
      obtain ⟨l', heq, hlen', hout, hpatch⟩ :=
        ih { prog with insns := some (l.modify (call_patch prog.main_prog_cnt i) i) }
          (l.modify (call_patch prog.main_prog_cnt i) i) rfl rfl hne
          (fun r hr => hcall r (List.mem_cons_of_mem _ hr))
          (fun j hj => hidx j (List.mem_cons_of_mem _ hj)) hnodup'
      have hred : relocate_entries obj prog (reloc_desc.RELO_CALL i o :: rest) =
          relocate_entries obj
            { prog with
              insns := some (l.modify (call_patch prog.main_prog_cnt i) i) } rest := by
        show (match bpf_program__reloc_text obj prog (.RELO_CALL i o) with
              | .error e => (e, prog)
              | .ok p => relocate_entries obj p rest) =
          relocate_entries obj
            { prog with
              insns := some (l.modify (call_patch prog.main_prog_cnt i) i) } rest
        rw [hstep]
      refine ⟨l', ?_, ?_, ?_, ?_⟩
      · rw [hred, heq]
      · rw [hlen']
        exact List.length_modify _ _ _
      · intro j hj
        have hji : i ≠ j := fun hij => hj (hij ▸ List.mem_cons_self _ _)
        have hjr : j ∉ reloc_idxs rest := fun hm => hj (List.mem_cons_of_mem _ hm)
        rw [hout j hjr]
        exact List.getElem?_modify_ne _ _ hji
      · intro i2 o2 hmem
        rcases List.mem_cons.mp hmem with heq2 | hmem2
        · cases heq2
          rw [hout i hi_notin]
          exact List.getElem?_modify_eq _ _ _
        · have hi2 : i2 ∈ reloc_idxs rest := by
            have := List.mem_map_of_mem
              (fun r => match r with
                        | reloc_desc.RELO_CALL i _ => i
                        | reloc_desc.RELO_LD64 i _ => i) hmem2
            simpa [reloc_idxs] using this
          have hii2 : i ≠ i2 := fun hii => hi_notin (hii ▸ hi2)
          rw [hpatch i2 o2 hmem2, List.getElem?_modify_ne _ _ hii2]

/-- A relocation list containing a local-call entry always fails with
`RELOC` on the text program itself (either at that entry or at an earlier
out-of-range map entry, which uses the same code). -/
theorem relocate_entries_text_prog_fails (obj : bpf_object) :
    ∀ (rl : List reloc_desc) (q : bpf_program),
      q.idx = obj.efile_text_shndx →
      (∃ r ∈ rl, reloc_is_call r = true) →
      (relocate_entries obj q rl).1 = -LIBBPF_ERRNO__RELOC := by
  intro rl
  induction rl with
  | nil =>
    intro q _ hex
    obtain ⟨r, hr, _⟩ := hex
    exact absurd hr (List.not_mem_nil _)
  | cons r rest ih =>
    intro q hq hex
    match r with
    | .RELO_CALL i o =>
      have hfail : bpf_program__reloc_text obj q (.RELO_CALL i o) =
          .error (-LIBBPF_ERRNO__RELOC) := by
        simp only [bpf_program__reloc_text]
        rw [if_pos hq]
      show (match bpf_program__reloc_text obj q (.RELO_CALL i o) with
            | .error e => (e, q)
            | .ok p => relocate_entries obj p rest).1 = -LIBBPF_ERRNO__RELOC
      rw [hfail]
    | .RELO_LD64 i m =>
      have hex' : ∃ r ∈ rest, reloc_is_call r = true := by
        obtain ⟨r', hr', hc'⟩ := hex
        rcases List.mem_cons.mp hr' with heq | hmem
        · subst heq
          exact absurd hc' (by simp [reloc_is_call])
        · exact ⟨r', hmem, hc'⟩
      simp only [relocate_entries]
      by_cases hrange : q.insns_cnt ≤ i
      · rw [if_pos hrange]
      · rw [if_neg hrange]
        exact ih _ hq hex'

/--
C2: for a program that is not the text program whose relocation list is a
non-empty list of local-call entries (at distinct, in-range instruction
indices), relocation appends the entire text body exactly once — the result
has length `insns_cnt + |text|` and its tail beyond the original count IS
the text body — records the prior count as `main_prog_cnt`, sets the new
count to the sum, and patches each call at index `i` by `call_patch`, which
adds `main_prog_cnt − i` to the immediate (exactly so within the 32-bit
signed range); instructions at other indices are untouched.  A local-call
relocation on the text program itself fails with `RELOC`.
-/
theorem bpf_program__relocate_local_calls (obj : bpf_object)
    (prog text : bpf_program) (l tl : List bpf_insn) (relos : List reloc_desc)
    (hfind : bpf_object__find_prog_by_idx obj obj.efile_text_shndx = some text)
    (hne : prog.idx ≠ obj.efile_text_shndx)
    (hrd : prog.reloc_desc = some relos)
    (hinsns : prog.insns = some l)
    (hlen : l.length = prog.insns_cnt)
    (hpos : 0 < prog.insns_cnt)
    (hmain : prog.main_prog_cnt = 0)
    (htext : text.insns = some tl)
    (htlen : tl.length = text.insns_cnt)
    (hcall : ∀ r ∈ relos, reloc_is_call r = true)
    (hidx : ∀ i ∈ reloc_idxs relos, i < prog.insns_cnt)
    (hnodup : (reloc_idxs relos).Nodup)
    (hnonempty : relos ≠ []) :
    (∃ l', bpf_program__relocate obj prog =
        (0, { prog with
              insns := some l'
              insns_cnt := prog.insns_cnt + text.insns_cnt
              main_prog_cnt := prog.insns_cnt
              reloc_desc := none }) ∧
      l'.length = prog.insns_cnt + tl.length ∧
      l'.drop prog.insns_cnt = tl ∧
      (∀ i o, reloc_desc.RELO_CALL i o ∈ relos →
        l'[i]? = (l[i]?).map (call_patch prog.insns_cnt i)) ∧
      (∀ j, j < prog.insns_cnt → j ∉ reloc_idxs relos → l'[j]? = l[j]?)) ∧
    (∀ insn : bpf_insn, ∀ i : Nat,
      -2 ^ 31 ≤ insn.imm + (prog.insns_cnt : Int) - (i : Int) →
      insn.imm + (prog.insns_cnt : Int) - (i : Int) < 2 ^ 31 →
      (call_patch prog.insns_cnt i insn).imm =
        insn.imm + (prog.insns_cnt : Int) - (i : Int)) ∧
    (∀ (q : bpf_program) (rl : List reloc_desc),
      q.idx = obj.efile_text_shndx →
      q.reloc_desc = some rl →
      (∃ r ∈ rl, reloc_is_call r = true) →
      (bpf_program__relocate obj q).1 = -LIBBPF_ERRNO__RELOC) := by
  refine ⟨?_, ?_, ?_⟩
  · -- the main relocation run
    obtain ⟨r0, rest, rfl⟩ : ∃ a t, relos = a :: t := by
      cases relos with
      | nil => exact absurd rfl hnonempty
      | cons a t => exact ⟨a, t, rfl⟩
    match r0, hcall r0 (List.mem_cons_self _ _) with
    | .RELO_LD64 i0 m0, hc0 => exact absurd hc0 (by simp [reloc_is_call])
    | .RELO_CALL i0 o0, _ =>
      have hcons : reloc_idxs (reloc_desc.RELO_CALL i0 o0 :: rest) =
          i0 :: reloc_idxs rest := rfl
      rw [hcons] at hidx hnodup
      have hi0 : i0 < prog.insns_cnt := hidx i0 (List.mem_cons_self _ _)
      have hidx' : ∀ i ∈ reloc_idxs rest, i < prog.insns_cnt :=
        fun i hi => hidx i (List.mem_cons_of_mem _ hi)
      have hi0_notin : i0 ∉ reloc_idxs rest := (List.nodup_cons.mp hnodup).1
      have hnodup' : (reloc_idxs rest).Nodup := (List.nodup_cons.mp hnodup).2
      have hstep1 := bpf_program__reloc_text_first obj prog text l tl i0 o0
        hfind hne hmain hinsns htext htlen
      obtain ⟨l', heq, hlen', hout, hpatch⟩ :=
        relocate_entries_all_calls obj prog.insns_cnt hpos rest
          { prog with
            insns := some ((l ++ tl).modify (call_patch prog.insns_cnt i0) i0)
            main_prog_cnt := prog.insns_cnt
            insns_cnt := prog.insns_cnt + text.insns_cnt }
          ((l ++ tl).modify (call_patch prog.insns_cnt i0) i0) rfl rfl hne
          (fun r hr => hcall r (List.mem_cons_of_mem _ hr)) hidx' hnodup'
      have hred : relocate_entries obj prog (reloc_desc.RELO_CALL i0 o0 :: rest) =
          relocate_entries obj
            { prog with
              insns := some ((l ++ tl).modify (call_patch prog.insns_cnt i0) i0)
              main_prog_cnt := prog.insns_cnt
              insns_cnt := prog.insns_cnt + text.insns_cnt } rest := by
        show (match bpf_program__reloc_text obj prog (.RELO_CALL i0 o0) with
              | .error e => (e, prog)
              | .ok p => relocate_entries obj p rest) =
          relocate_entries obj
            { prog with
              insns := some ((l ++ tl).modify (call_patch prog.insns_cnt i0) i0)
              main_prog_cnt := prog.insns_cnt
              insns_cnt := prog.insns_cnt + text.insns_cnt } rest
        rw [hstep1]
      have hentries : relocate_entries obj prog
          (reloc_desc.RELO_CALL i0 o0 :: rest) =
          (0, { prog with
                insns := some l'
                insns_cnt := prog.insns_cnt + text.insns_cnt
                main_prog_cnt := prog.insns_cnt }) := by
        rw [hred, heq]
      have happlen : (l ++ tl).length = prog.insns_cnt + tl.length := by
        rw [List.length_append, hlen]
      have hlenfin : l'.length = prog.insns_cnt + tl.length := by
        rw [hlen', List.length_modify, happlen]
      refine ⟨l', ?_, hlenfin, ?_, ?_, ?_⟩
      · show (match prog.reloc_desc with
              | none => (0, prog)
              | some relos =>
                let p := relocate_entries obj prog relos
                if p.1 ≠ 0 then (p.1, p.2)
                else (0, { p.2 with reloc_desc := none })) = _
        rw [hrd]
        simp only [hentries]
        norm_num
      · -- the appended tail is exactly the text body
        apply List.ext_getElem?
        intro m
        rw [List.getElem?_drop]
        have hnotin : prog.insns_cnt + m ∉ reloc_idxs rest := fun hm =>
          absurd (hidx' (prog.insns_cnt + m) hm) (by omega)
        rw [hout _ hnotin,
            List.getElem?_modify_ne _ _ (by omega : i0 ≠ prog.insns_cnt + m),
            List.getElem?_append]
        rw [if_neg (by omega : ¬prog.insns_cnt + m < l.length)]
        have hm : prog.insns_cnt + m - l.length = m := by omega
        rw [hm]
      · intro i o hmem
        rcases List.mem_cons.mp hmem with heq2 | hmem2
        · cases heq2
          rw [hout i0 hi0_notin, List.getElem?_modify_eq,
              List.getElem?_append, if_pos (by omega : i0 < l.length)]
          rfl
        · have hi2 : i ∈ reloc_idxs rest := by
            have := List.mem_map_of_mem
              (fun r => match r with
                        | reloc_desc.RELO_CALL i _ => i
                        | reloc_desc.RELO_LD64 i _ => i) hmem2
            simpa [reloc_idxs] using this
          have hii2 : i0 ≠ i := fun hii => hi0_notin (hii ▸ hi2)
          have hilt : i < prog.insns_cnt := hidx' i hi2
          rw [hpatch i o hmem2, List.getElem?_modify_ne _ _ hii2,
              List.getElem?_append, if_pos (by omega : i < l.length)]
      · intro j hj hnot
        rw [hcons] at hnot
        have hji : i0 ≠ j := fun hij => hnot (hij ▸ List.mem_cons_self _ _)
        have hjr : j ∉ reloc_idxs rest := fun hm => hnot (List.mem_cons_of_mem _ hm)
        rw [hout j hjr, List.getElem?_modify_ne _ _ hji,
            List.getElem?_append, if_pos (by omega : j < l.length)]
  · -- the immediate bias is a plain addition inside the 32-bit range
    intro insn i h1 h2
    show toInt32 (insn.imm + (prog.insns_cnt : Int) - (i : Int)) = _
    exact toInt32_eq_self (by omega) (by omega)
  · -- a local-call relocation on the text program fails with RELOC
    intro q rl hq hrl hex
    have hfail := relocate_entries_text_prog_fails obj rl q hq hex
    show (match q.reloc_desc with
          | none => ((0 : Int), q)
          | some relos =>
            let p := relocate_entries obj q relos
            if p.1 ≠ 0 then (p.1, p.2)
            else (0, { p.2 with reloc_desc := none })).1 = -LIBBPF_ERRNO__RELOC
    rw [hrl]
    rcases hre : relocate_entries obj q rl with ⟨e, p⟩
    rw [hre] at hfail
    replace hfail : e = -LIBBPF_ERRNO__RELOC := hfail
    subst hfail
    simp only [hre]
    rw [if_pos (by norm_num [LIBBPF_ERRNO__RELOC])]

/-- Witness for `bpf_program__relocate_local_calls`: the concrete
one-instruction caller with one local-call relocation into the
one-instruction text program. -/
theorem bpf_program__relocate_local_calls_witness :
    (∃ l', bpf_program__relocate reloc_obj caller_prog =
        (0, { caller_prog with
              insns := some l'
              insns_cnt := caller_prog.insns_cnt + text_prog.insns_cnt
              main_prog_cnt := caller_prog.insns_cnt
              reloc_desc := none }) ∧
      l'.length = caller_prog.insns_cnt + [exit_insn].length ∧
      l'.drop caller_prog.insns_cnt = [exit_insn] ∧
      (∀ i o, reloc_desc.RELO_CALL i o ∈ [reloc_desc.RELO_CALL 0 0] →
        l'[i]? = (([call_insn] : List bpf_insn)[i]?).map
          (call_patch caller_prog.insns_cnt i)) ∧
      (∀ j, j < caller_prog.insns_cnt →
        j ∉ reloc_idxs [reloc_desc.RELO_CALL 0 0] →
        l'[j]? = ([call_insn] : List bpf_insn)[j]?)) ∧
    (∀ insn : bpf_insn, ∀ i : Nat,
      -2 ^ 31 ≤ insn.imm + (caller_prog.insns_cnt : Int) - (i : Int) →
      insn.imm + (caller_prog.insns_cnt : Int) - (i : Int) < 2 ^ 31 →
      (call_patch caller_prog.insns_cnt i insn).imm =
        insn.imm + (caller_prog.insns_cnt : Int) - (i : Int)) ∧
    (∀ (q : bpf_program) (rl : List reloc_desc),
      q.idx = reloc_obj.efile_text_shndx →
      q.reloc_desc = some rl →
      (∃ r ∈ rl, reloc_is_call r = true) →
      (bpf_program__relocate reloc_obj q).1 = -LIBBPF_ERRNO__RELOC) :=
  bpf_program__relocate_local_calls reloc_obj caller_prog text_prog [call_insn]
    [exit_insn] [.RELO_CALL 0 0] rfl (by decide) rfl rfl rfl (by decide) rfl rfl
    rfl (by decide) (by decide) (by decide) (by decide)

/-- Where the `size_t`-to-`int` conversion of the comparator cannot
overflow, its order is the plain offset order. -/
theorem map_le_iff_of_bounded {a b : bpf_map} (ha : a.offset < 2 ^ 31)
    (hb : b.offset < 2 ^ 31) : map_le a b ↔ map_off_le a b := by
  unfold map_le map_off_le compare_bpf_map
  rw [toInt32_eq_self (by omega) (by omega)]
  omega

/-- `orderedInsert` behaves identically under the comparator order and the
plain offset order on bounded maps. -/
theorem orderedInsert_map_le_congr (a : bpf_map) (ha : a.offset < 2 ^ 31) :
    ∀ l : List bpf_map, (∀ x ∈ l, x.offset < 2 ^ 31) →
      List.orderedInsert map_le a l = List.orderedInsert map_off_le a l := by
  intro l
  induction l with
  | nil => intro _; rfl
  | cons b t ih =>
    intro hl
    have hb := hl b (List.mem_cons_self _ _)
    have ht : ∀ x ∈ t, x.offset < 2 ^ 31 :=
      fun x hx => hl x (List.mem_cons_of_mem _ hx)
    simp only [List.orderedInsert]
    by_cases hle : map_le a b
    · rw [if_pos hle, if_pos ((map_le_iff_of_bounded ha hb).mp hle)]
    · rw [if_neg hle, if_neg (fun hc => hle ((map_le_iff_of_bounded ha hb).mpr hc)),
          ih ht]

/-- `insertionSort` behaves identically under the comparator order and the
plain offset order on bounded maps. -/
theorem insertionSort_map_le_congr :
    ∀ l : List bpf_map, (∀ x ∈ l, x.offset < 2 ^ 31) →
      List.insertionSort map_le l = List.insertionSort map_off_le l := by
  intro l
  induction l with
  | nil => intro _; rfl
  | cons a t ih =>
    intro hl
    have ha := hl a (List.mem_cons_self _ _)
    have ht : ∀ x ∈ t, x.offset < 2 ^ 31 :=
      fun x hx => hl x (List.mem_cons_of_mem _ hx)
    simp only [List.insertionSort]
    rw [ih ht, orderedInsert_map_le_congr a ha]
    intro x hx
    exact ht x ((List.perm_insertionSort map_off_le t).mem_iff.mp hx)

/--
C8: whenever the map table builder succeeds, the resulting table is sorted
strictly ascending by byte offset — given that the offsets are unique (as
the spec asserts) and small enough that the comparator's `size_t`-to-`int`
conversion cannot overflow.
-/
theorem bpf_object__init_maps_sorted (strtab : Nat → String) (maps_shndx : Int)
    (symbols : Option (List (Option GElf_Sym))) (maps_data : Option (List Nat))
    (ms : List bpf_map)
    (h : bpf_object__init_maps strtab maps_shndx symbols maps_data = .ok ms)
    (hb : ∀ m ∈ ms, m.offset < 2 ^ 31)
    (hu : ms.Pairwise (fun a b => a.offset ≠ b.offset)) :
    ms.Pairwise (fun a b => a.offset < b.offset) := by
  have hsorted : ms = [] ∨ ∃ maps0, ms = List.insertionSort map_le maps0 := by
    unfold bpf_object__init_maps at h
    split at h
    · cases h
    · split at h
      · cases h
      · split at h
        · cases h
        · rename_i hsh symbols0 syms maps_data0 data
          by_cases hnr : ((syms.filterMap id).filter
              (fun s => (s.st_shndx : Int) == maps_shndx)).length = 0
          · simp only [hnr] at h
            injection h with h1
            exact Or.inl h1.symm
          · simp only [hnr] at h
            by_cases hsz : data.length = 0 ∨ data.length %
                ((syms.filterMap id).filter
                  (fun s => (s.st_shndx : Int) == maps_shndx)).length ≠ 0
            · rw [if_pos hsz] at h
              exact Except.noConfusion h
            · rw [if_neg hsz] at h
              cases hm : List.mapM (init_one_map strtab data (data.length /
                  ((syms.filterMap id).filter
                    (fun s => (s.st_shndx : Int) == maps_shndx)).length))
                  ((syms.filterMap id).filter
                    (fun s => (s.st_shndx : Int) == maps_shndx)) with
              | error e =>
                simp only [hm] at h
                rw [if_neg not_false] at h
                exact Except.noConfusion h
              | ok maps0 =>
                simp only [hm] at h
                rw [if_neg not_false] at h
                injection h with h1
                exact Or.inr ⟨maps0, h1.symm⟩
  rcases hsorted with rfl | ⟨maps0, rfl⟩
  · exact List.Pairwise.nil
  · have hperm := List.perm_insertionSort map_le maps0
    have hb0 : ∀ x ∈ maps0, x.offset < 2 ^ 31 :=
      fun x hx => hb x (hperm.mem_iff.mpr hx)
    have hcongr := insertionSort_map_le_congr maps0 hb0
    have hsort : List.Sorted map_off_le (List.insertionSort map_le maps0) := by
      rw [hcongr]
      exact List.sorted_insertionSort map_off_le maps0
    exact (hsort.and hu).imp
      (fun hab => Nat.lt_of_le_of_ne hab.1 hab.2)

/-- Witness for `bpf_object__init_maps_sorted`: a 40-byte all-zero maps
section with two symbols at offsets 20 and 0 builds the table sorted
strictly as offsets 0, 20. -/
theorem bpf_object__init_maps_sorted_witness :
    ([zero_def_map 0, zero_def_map 20] : List bpf_map).Pairwise
      (fun a b => a.offset < b.offset) :=
  bpf_object__init_maps_sorted (fun _ => "") 1
    (some [some ⟨0, 0, 1, 20⟩, some ⟨0, 0, 1, 0⟩]) (some (List.replicate 40 0))
    [zero_def_map 0, zero_def_map 20] rfl (by decide) (by decide)

end Libbpf
